import Mathlib

/-! smsgateway: balance ledger, message orchestrator and delivery simulator

A shallow embedding of the Go services

* `client-managment/handler/handler.go` (the balance ledger `Svc`),
* `client-managment/grpc/server.go` (the RPC surface of the ledger),
* `message-manager/handler/handler.go` (the message orchestrator `API`),
* `messenger-worker/handler/worker.go` (the delivery simulator `Worker`).

Conventions of the embedding.

* `int64` values are integers reduced with `wrap64` after every arithmetic
  operation, so overflow behaves as in Go (two's complement wrap-around).
* A table is the list of its rows in insertion order. `First` is the first row
  with the given key, `Create` appends a row. `Save` rewrites the row with the
  key of its argument; when that key is the zero value of its type it is a plain
  insert, which the table refuses if a row with that key exists.
* `time.Now()` is an explicit argument `now` of every operation that reads the
  clock.
* Storage calls succeed unless an operation takes an explicit outcome flag
  (`createOk` for `DB.Create` in `API.CreateMessage`, `writeOk` for
  `WriteMessages` in the publish loop) or the table refuses the write
  (`saveClient` on the empty key). An RPC of the orchestrator reaches the
  ledger and is answered by `Server.Debit` or `Server.Refund`.
* The orchestrator acts on a `World`: the ledger, the message table, the
  hand-off queue `ReadyQ`, the outbound topics, and the trace of the RPCs it
  issued. Concurrent activities are run one step after the other.
* `strings.ToUpper` beyond ASCII and the reading of a textual key by the
  storage engine are parameters, gathered in `Runtime`.
-/

set_option autoImplicit false
set_option maxRecDepth 8192

namespace SmsGateway

deriving instance DecidableEq for Except

/-! ## int64 arithmetic -/

/-- The least `int64`. -/
def minInt64 : Int := -9223372036854775808

/-- The greatest `int64`. -/
def maxInt64 : Int := 9223372036854775807

/-- The `int64` denoted by an integer in two's complement. -/
def wrap64 (x : Int) : Int :=
  (x + 9223372036854775808) % 18446744073709551616 - 9223372036854775808

/-- Go `a - b` on `int64`. -/
def sub64 (a b : Int) : Int := wrap64 (a - b)

/-- Go `a + b` on `int64`. -/
def add64 (a b : Int) : Int := wrap64 (a + b)

/-- Go `-a` on `int64`. -/
def neg64 (a : Int) : Int := wrap64 (-a)

/-- The integer is representable as an `int64`. -/
def isInt64 (x : Int) : Prop := minInt64 ≤ x ∧ x ≤ maxInt64

instance (x : Int) : Decidable (isInt64 x) := by
  unfold isInt64; exact inferInstance

/-! ## Balance ledger (`client-managment/handler/handler.go`) -/

/-- The errors a ledger operation returns: the two sentinel errors, and
`ErrStorage` for an error of the storage engine itself, returned as it is. -/
inductive LedgerError where
  | ErrNotFound
  | ErrInsufficientFunds
  | ErrStorage
  deriving DecidableEq, Repr

/-- Row of the client table, primary key `ClientID`. -/
structure Client where
  ClientID : String
  BalanceMinor : Int
  CreatedAt : Nat
  UpdatedAt : Nat
  deriving DecidableEq, Repr

/-- Row of the price plan table, primary key `ClientID`. -/
structure PricePlan where
  ClientID : String
  NormalPriceMinor : Int
  PriorityPriceMinor : Int
  deriving DecidableEq, Repr

/-- Row of the transaction table: `AmountMinor` is `+refund, -debit`,
`Typ` (the column `Type`) is `DEBIT|REFUND`. -/
structure Transaction where
  ID : Nat
  ClientID : String
  AmountMinor : Int
  Typ : String
  Ref : String
  CreatedAt : Nat
  deriving DecidableEq, Repr

/-- The ledger service: the three tables behind `Svc.db`. -/
structure Svc where
  clients : List Client
  pricePlans : List PricePlan
  transactions : List Transaction
  deriving DecidableEq, Repr

/-- Query `First(&c, "client_id = ?", id)` on the client table. -/
def firstClient (rows : List Client) (id : String) : Option Client :=
  rows.find? (fun c => c.ClientID == id)

/-- Query `First(&p, "client_id = ?", id)` on the price plan table. -/
def firstPricePlan (rows : List PricePlan) (id : String) : Option PricePlan :=
  rows.find? (fun p => p.ClientID == id)

/-- An upsert on the client table: the row with the primary key of `c` is
rewritten, and `c` is inserted when there is none. -/
def upsertClient : List Client → Client → List Client
  | [], c => [c]
  | r :: rs, c => if r.ClientID = c.ClientID then c :: rs else r :: upsertClient rs c

/-- Write `Save(&c)` on the client table. When the primary key of `c` is the
zero value (`ClientID = ""`) gorm runs a plain INSERT, which the engine refuses
when a row with that key exists. Otherwise gorm updates every column of the
row with the key of `c`, and upserts `c` when no row was updated. -/
def saveClient (rows : List Client) (c : Client) : Except LedgerError (List Client) :=
  if c.ClientID = "" then
    if (firstClient rows "").isSome then .error .ErrStorage else .ok (rows ++ [c])
  else .ok (upsertClient rows c)

/-- An upsert on the price plan table. -/
def upsertPricePlan : List PricePlan → PricePlan → List PricePlan
  | [], p => [p]
  | r :: rs, p => if r.ClientID = p.ClientID then p :: rs else r :: upsertPricePlan rs p

/-- The next value of the auto-increment key of the transaction table. -/
def nextTransactionID (rows : List Transaction) : Nat :=
  (rows.map (fun t => t.ID)).foldl max 0 + 1

/-- Insert `Create(&Transaction{ClientID, AmountMinor, Type, Ref})`: the key is
generated and `CreatedAt` is the clock. -/
def createTransaction (rows : List Transaction) (now : Nat)
    (clientID : String) (amount : Int) (type ref : String) : List Transaction :=
  rows ++ [{ ID := nextTransactionID rows, ClientID := clientID, AmountMinor := amount,
             Typ := type, Ref := ref, CreatedAt := now }]

/-- The stored balance of a client, when the client exists. -/
def Svc.balanceOf (s : Svc) (id : String) : Option Int :=
  (firstClient s.clients id).map (fun c => c.BalanceMinor)

/-- Operation `Svc.CreateClient`: upsert of the client row (on conflict the
balance and `updated_at` are overwritten) and of the price plan row. -/
def Svc.CreateClient (s : Svc) (now : Nat) (id : String) (initial normal priority : Int) : Svc :=
  let clients :=
    match firstClient s.clients id with
    | some c => upsertClient s.clients { c with BalanceMinor := initial, UpdatedAt := now }
    | none => upsertClient s.clients
        { ClientID := id, BalanceMinor := initial, CreatedAt := now, UpdatedAt := now }
  { s with
    clients := clients
    pricePlans := upsertPricePlan s.pricePlans
      { ClientID := id, NormalPriceMinor := normal, PriorityPriceMinor := priority } }

/-- Operation `Svc.GetClient`. -/
def Svc.GetClient (s : Svc) (id : String) : Except LedgerError Client :=
  match firstClient s.clients id with
  | some c => .ok c
  | none => .error .ErrNotFound

/-- Operation `Svc.GetPricePlan`. -/
def Svc.GetPricePlan (s : Svc) (id : String) : Except LedgerError PricePlan :=
  match firstPricePlan s.pricePlans id with
  | some p => .ok p
  | none => .error .ErrNotFound

/-- Operation `Svc.Debit`: one database transaction. The client row is read
under lock; a balance below `amount` aborts with `ErrInsufficientFunds`;
otherwise the balance is decremented and saved and a `DEBIT` row with amount
`-amount` is created. An error of `Save` aborts too. An aborted transaction
leaves the tables as they were. -/
def Svc.Debit (s : Svc) (now : Nat) (id : String) (amount : Int) (ref : String) :
    Svc × Except LedgerError Int :=
  match firstClient s.clients id with
  | none => (s, .error .ErrNotFound)
  | some c =>
    if c.BalanceMinor < amount then (s, .error .ErrInsufficientFunds)
    else
      let c1 : Client := { c with BalanceMinor := sub64 c.BalanceMinor amount, UpdatedAt := now }
      match saveClient s.clients c1 with
      | .error e => (s, .error e)
      | .ok clients =>
        let after := c1.BalanceMinor
        ({ s with
            clients := clients
            transactions := createTransaction s.transactions now id (neg64 amount) "DEBIT" ref },
         .ok after)

/-- Operation `Svc.Refund`: one database transaction. The client row is read
under lock, the balance is incremented and saved, and a `REFUND` row with
amount `amount` is created. An error of `Save` aborts the transaction, which
leaves the tables as they were. -/
def Svc.Refund (s : Svc) (now : Nat) (id : String) (amount : Int) (ref : String) :
    Svc × Except LedgerError Int :=
  match firstClient s.clients id with
  | none => (s, .error .ErrNotFound)
  | some c =>
    let c1 : Client := { c with BalanceMinor := add64 c.BalanceMinor amount, UpdatedAt := now }
    match saveClient s.clients c1 with
    | .error e => (s, .error e)
    | .ok clients =>
      let after := c1.BalanceMinor
      ({ s with
          clients := clients
          transactions := createTransaction s.transactions now id amount "REFUND" ref },
       .ok after)

/-- A run of `Debit` calls on one client, results discarded. -/
def Svc.debitAll (s : Svc) (now : Nat) (id : String) : List Int → Svc
  | [] => s
  | a :: rest => Svc.debitAll (s.Debit now id a "").1 now id rest

/-! ## RPC surface of the ledger (`client-managment/grpc/server.go`) -/

/-- The gRPC status codes the ledger server answers with. -/
inductive Code where
  | InvalidArgument
  | NotFound
  | FailedPrecondition
  | Internal
  deriving DecidableEq, Repr

/-- Message `MoneyRequest` of the generated client. -/
structure MoneyRequest where
  ClientId : String
  AmountMinor : Int
  Ref : String
  deriving DecidableEq, Repr

/-- Message `MoneyResponse` of the generated client. -/
structure MoneyResponse where
  BalanceAfter : Int
  deriving DecidableEq, Repr

/-- The gRPC status an RPC fails with, as `status.Error` and `status.Errorf`
build it: the code, the literal part of the description, and the error that
`%v` formats after it, when there is one. -/
structure RPCStatus where
  code : Code
  desc : String
  cause : Option LedgerError
  deriving DecidableEq, Repr

/-- Handler `Server.Debit`: `ErrInsufficientFunds` becomes `FailedPrecondition`,
`ErrNotFound` becomes `NotFound` and any other error `Internal`. -/
def Server.Debit (s : Svc) (now : Nat) (req : MoneyRequest) :
    Svc × Except RPCStatus MoneyResponse :=
  match s.Debit now req.ClientId req.AmountMinor req.Ref with
  | (s1, .ok after) => (s1, .ok { BalanceAfter := after })
  | (s1, .error .ErrInsufficientFunds) =>
    (s1, .error ⟨.FailedPrecondition, "insufficient_funds", none⟩)
  | (s1, .error .ErrNotFound) => (s1, .error ⟨.NotFound, "client_not_found", none⟩)
  | (s1, .error e) => (s1, .error ⟨.Internal, "debit: ", some e⟩)

/-- Handler `Server.Refund`: `ErrNotFound` becomes `NotFound` and any other
error `Internal`. -/
def Server.Refund (s : Svc) (now : Nat) (req : MoneyRequest) :
    Svc × Except RPCStatus MoneyResponse :=
  match s.Refund now req.ClientId req.AmountMinor req.Ref with
  | (s1, .ok after) => (s1, .ok { BalanceAfter := after })
  | (s1, .error .ErrNotFound) => (s1, .error ⟨.NotFound, "client_not_found", none⟩)
  | (s1, .error e) => (s1, .error ⟨.Internal, "refund: ", some e⟩)

/-- Errors returned by `API.debit` and `API.refund`: the ledger client is not
set, the sentinel `errInsufficientFunds`, or the status the RPC failed with. -/
inductive APIError where
  | cmNotSet
  | errInsufficientFunds
  | rpc (st : RPCStatus)
  deriving DecidableEq, Repr

/-- What fills the field `Detail` of an error answer: nothing, or the text
`err.Error()` of an error, kept here as the error it is the text of: the error
of `API.debit`, or the error of `DB.Create`. -/
inductive ErrorDetail where
  | none
  | ofError (e : APIError)
  | ofCreate
  deriving DecidableEq, Repr

/-! ## Message orchestrator (`message-manager/handler/handler.go`) -/

/-- What the embedding takes from the platform: `unicode.ToUpper` on runes
beyond ASCII, and the way the storage engine reads a textual key that is
compared with the integer column `id` (no integer: no row matches). -/
structure Runtime where
  upperRune : Char → Char
  coerceID : String → Option Int

/-- Go `strings.ToUpper`: ASCII letters are mapped by the fast path, every
other rune by `unicode.ToUpper`. -/
def ToUpper (rt : Runtime) (s : String) : String :=
  String.mk (s.data.map (fun c => if c.val < 128 then c.toUpper else rt.upperRune c))

/-- Go `strconv.Itoa`. -/
def Itoa (n : Int) : String := toString n

/-- Helper `runeCount`: the loop `n := 0; for range s ... n++`, one turn per
code point of the string. -/
def runeCount (s : String) : Nat := s.data.foldl (fun n _ => n + 1) 0

/-- Row of the message table, primary key `ID` (auto-increment). -/
structure Message where
  ID : Int
  ClientID : String
  To : String
  Body : String
  Typ : String
  PriceMinor : Int
  Status : String
  Operator : String
  CreatedAt : Nat
  UpdatedAt : Nat
  deriving DecidableEq, Repr

/-- JSON body of `POST /messages`. -/
structure CreateMessageRequest where
  To : String
  Body : String
  Typ : String
  deriving DecidableEq, Repr

/-- JSON body of the `201` answer. -/
structure CreateMessageResponse where
  ID : String
  Status : String
  deriving DecidableEq, Repr

/-- JSON body of an error answer. -/
structure ErrorResponse where
  Error : String
  Detail : ErrorDetail := .none
  deriving DecidableEq, Repr

/-- The status event read from the status topic. -/
structure StatusEvent where
  MessageID : String
  Status : String
  Operator : String
  At : String
  deriving DecidableEq, Repr

/-- A `kafka.Header`. -/
structure Header where
  Key : String
  Value : String
  deriving DecidableEq, Repr

/-- The map marshalled into the value of the outbound record (`to_` and
`type_` are the JSON keys `to` and `type`). -/
structure OutboundValue where
  message_id : String
  client_id : String
  to_ : String
  body : String
  type_ : String
  price : Int
  deriving DecidableEq, Repr

/-- A `kafka.Message` of the outbound topics. -/
structure KafkaMessage where
  Key : String
  Value : OutboundValue
  Headers : List Header
  deriving DecidableEq, Repr

/-- An RPC issued to the ledger. -/
inductive LedgerCall where
  | Debit (req : MoneyRequest)
  | Refund (req : MoneyRequest)
  deriving DecidableEq, Repr

/-- The configuration held by `API`: the two prices, and whether the ledger
client `CM` and the status reader `RStatus` are set (not nil). -/
structure API where
  PriceNormal : Int
  PricePriority : Int
  CM : Bool
  RStatus : Bool
  deriving DecidableEq, Repr

/-- Everything the orchestrator acts on: the ledger behind `CM`, the message
table behind `DB`, the messages sent on `ReadyQ` that the publish loop has
not published yet, whether that loop is still running, the records written to the
two outbound topics, and the trace of RPCs issued to the ledger. -/
structure World where
  ledger : Svc
  messages : List Message
  ReadyQ : List Message
  publisherRunning : Bool
  topicNormal : List KafkaMessage
  topicPriority : List KafkaMessage
  rpcLog : List LedgerCall
  deriving DecidableEq, Repr

/-- Helper `API.debit`: the RPC `CM.Debit`; `FailedPrecondition` is turned
into `errInsufficientFunds`. -/
def API.debit (a : API) (w : World) (now : Nat) (clientID : String) (amount : Int)
    (ref : String) : World × Except APIError Int :=
  if a.CM = false then (w, .error .cmNotSet)
  else
    let req : MoneyRequest := { ClientId := clientID, AmountMinor := amount, Ref := ref }
    let r := Server.Debit w.ledger now req
    let w1 : World := { w with ledger := r.1, rpcLog := w.rpcLog ++ [.Debit req] }
    match r.2 with
    | .error st =>
      if st.code = .FailedPrecondition then (w1, .error .errInsufficientFunds)
      else (w1, .error (.rpc st))
    | .ok resp => (w1, .ok resp.BalanceAfter)

/-- Helper `API.refund`: the RPC `CM.Refund`. -/
def API.refund (a : API) (w : World) (now : Nat) (clientID : String) (amount : Int)
    (ref : String) : World × Except APIError Int :=
  if a.CM = false then (w, .error .cmNotSet)
  else
    let req : MoneyRequest := { ClientId := clientID, AmountMinor := amount, Ref := ref }
    let r := Server.Refund w.ledger now req
    let w1 : World := { w with ledger := r.1, rpcLog := w.rpcLog ++ [.Refund req] }
    match r.2 with
    | .error st => (w1, .error (.rpc st))
    | .ok resp => (w1, .ok resp.BalanceAfter)

/-- The next value of the auto-increment key of the message table. -/
def nextMessageID (rows : List Message) : Int :=
  (rows.map (fun m => m.ID)).foldl max 0 + 1

/-- Query `First(&msg, "id = ?", key)` with a textual key. -/
def firstMessage (rt : Runtime) (rows : List Message) (key : String) : Option Message :=
  match rt.coerceID key with
  | none => none
  | some id => rows.find? (fun m => m.ID == id)

/-- Write `Save(&msg)` on the message table. The key of a stored message is
generated by the table from 1 on (`nextMessageID`), so the message written
back by the status transaction has a non-zero key and `Save` rewrites its
row. -/
def saveMessage : List Message → Message → List Message
  | [], m => [m]
  | r :: rs, m => if r.ID = m.ID then m :: rs else r :: saveMessage rs m

/-- Write `Model(&Message{}).Where("id = ?", id).Update("status", status)`:
every row with that key gets the status, and `updated_at` the clock. -/
def updateStatus (rows : List Message) (now : Nat) (id : Int) (status : String) : List Message :=
  rows.map (fun r => if r.ID = id then { r with Status := status, UpdatedAt := now } else r)

/-- The stored status of the message with the given key. -/
def World.statusOf (w : World) (id : Int) : Option String :=
  (w.messages.find? (fun m => m.ID == id)).map (fun m => m.Status)

/-- The record `kmsg` that `PublishMessage` builds for a message. -/
def kafkaMessageOf (m : Message) : KafkaMessage :=
  { Key := Itoa m.ID
    Value := { message_id := Itoa m.ID, client_id := m.ClientID, to_ := m.To, body := m.Body,
               type_ := m.Typ, price := m.PriceMinor }
    Headers := [⟨"x-msg-id", Itoa m.ID⟩, ⟨"x-client-id", m.ClientID⟩, ⟨"x-type", m.Typ⟩] }

/-- The value of the header with the given key, if the record carries one. -/
def KafkaMessage.header (k : KafkaMessage) (key : String) : Option String :=
  (k.Headers.find? (fun h => h.Key == key)).map (fun h => h.Value)

/-- One iteration of the loop of `API.PublishMessage` on the message `m` taken
from `ReadyQ`; `writeOk` is the outcome of `WriteMessages`. A failed write is
followed by a refund and by `return`, which ends the loop. -/
def API.publishOne (a : API) (w : World) (now : Nat) (m : Message) (writeOk : Bool) : World :=
  let kmsg := kafkaMessageOf m
  if writeOk = false then
    let w1 := (a.refund w now m.ClientID m.PriceMinor (Itoa m.ID)).1
    { w1 with publisherRunning := false }
  else
    let w1 : World :=
      if m.Typ = "PRIORITY" then { w with topicPriority := w.topicPriority ++ [kmsg] }
      else { w with topicNormal := w.topicNormal ++ [kmsg] }
    { w1 with messages := updateStatus w1.messages now m.ID "QUEUED" }

/-- The loop of `API.PublishMessage`, run on the outcomes of its successive
writes: it takes the messages of `ReadyQ` in order until a write fails. -/
def API.PublishMessage (a : API) (now : Nat) : World → List Bool → World
  | w, [] => w
  | w, ok :: oks =>
    if w.publisherRunning = false then w
    else
      match w.ReadyQ with
      | [] => w
      | m :: q => API.PublishMessage a now (a.publishOne { w with ReadyQ := q } now m ok) oks

/-- What the handler of `POST /messages` receives: the header `X-Client-ID`
and the outcome of decoding the JSON body. -/
structure HTTPRequest where
  XClientID : String
  json : Except String CreateMessageRequest

/-- Body of an HTTP answer. -/
inductive Reply where
  | created (r : CreateMessageResponse)
  | error (e : ErrorResponse)
  deriving DecidableEq, Repr

/-- An HTTP answer. -/
structure Response where
  status : Nat
  body : Reply
  deriving DecidableEq, Repr

/-- Call `ShouldBindJSON(&req)`: decoding, then the `binding:"required"` tags
of `To` and `Body` (the text of the validation error is abridged). -/
def ShouldBindJSON (req : HTTPRequest) : Except String CreateMessageRequest :=
  match req.json with
  | .error e => .error e
  | .ok r => if r.To = "" ∨ r.Body = "" then .error "required" else .ok r

/-- Handler `API.CreateMessage`. `createOk` is the outcome of `DB.Create`. The
send to `ReadyQ` completes when the publish loop receives the message. The
answer is `none` when the handler is still blocked on that send at the end of
the step: the publish loop has returned, or an earlier message is still
waiting for it. -/
def API.CreateMessage (rt : Runtime) (a : API) (w : World) (now : Nat) (createOk : Bool)
    (req : HTTPRequest) : World × Option Response :=
  let clientID := req.XClientID
  if clientID = "" then
    (w, some ⟨400, .error { Error := "missing X-Client-ID" }⟩)
  else
    match ShouldBindJSON req with
    | .error e => (w, some ⟨400, .error { Error := e }⟩)
    | .ok r =>
      let typ := ToUpper rt (if r.Typ = "" then "NORMAL" else r.Typ)
      if typ ≠ "NORMAL" ∧ typ ≠ "PRIORITY" then
        (w, some ⟨400, .error { Error := "type must be NORMAL or PRIORITY" }⟩)
      else if runeCount r.Body > 160 then
        (w, some ⟨400, .error { Error := "single-page only (<=160 chars)" }⟩)
      else
        let price := if typ = "PRIORITY" then a.PricePriority else a.PriceNormal
        match a.debit w now clientID price "" with
        | (w1, .error .errInsufficientFunds) =>
          (w1, some ⟨402, .error { Error := "insufficient_funds" }⟩)
        | (w1, .error e) =>
          (w1, some ⟨500, .error { Error := "internal_error", Detail := .ofError e }⟩)
        | (w1, .ok _) =>
          if createOk = false then
            let w2 := (a.refund w1 now clientID price "").1
            (w2, some ⟨500, .error { Error := "internal_error", Detail := .ofCreate }⟩)
          else
            let m : Message :=
              { ID := nextMessageID w1.messages, ClientID := clientID, To := r.To, Body := r.Body,
                Typ := typ, PriceMinor := price, Status := "CREATED", Operator := "",
                CreatedAt := now, UpdatedAt := now }
            let w2 : World := { w1 with messages := w1.messages ++ [m] }
            if w2.publisherRunning = false then (w2, none)
            else
              ({ w2 with ReadyQ := w2.ReadyQ ++ [m] },
               if w2.ReadyQ = [] then
                 some ⟨201, .created { ID := Itoa m.ID, Status := "CREATED" }⟩
               else none)

/-- The final check of the status consumer: the stored status, upper-cased, is
`DELIVERED`, `FAILED` or `EXPIRED`. -/
def isFinal (rt : Runtime) (status : String) : Bool :=
  let u := ToUpper rt status
  u == "DELIVERED" || u == "FAILED" || u == "EXPIRED"

/-- The error a status transaction can end with. -/
inductive ConsumerError where
  | recordNotFound
  deriving DecidableEq, Repr

/-- The body of the loop of `API.StartStatusConsumer` for one decoded event:
the transaction on the message row, and the refund issued from inside it when
the new status is `FAILED` or `EXPIRED`. The second component is the error the
loop logs as `status apply tx err`. -/
def API.applyStatus (rt : Runtime) (a : API) (w : World) (now : Nat) (evt : StatusEvent) :
    World × Option ConsumerError :=
  let s := ToUpper rt evt.Status
  match firstMessage rt w.messages evt.MessageID with
  | none => (w, some .recordNotFound)
  | some msg =>
    if isFinal rt msg.Status then (w, none)
    else
      let msg1 : Message :=
        { msg with
          Status := s
          Operator := if evt.Operator ≠ "" then evt.Operator else msg.Operator
          UpdatedAt := now }
      let w1 : World := { w with messages := saveMessage w.messages msg1 }
      if s = "FAILED" ∨ s = "EXPIRED" then
        ((a.refund w1 now msg1.ClientID msg1.PriceMinor "").1, none)
      else (w1, none)

/-- The loop of `API.StartStatusConsumer` on the events it reads, each with
the clock at its arrival; nothing is consumed when `RStatus` is nil. The
result carries the errors logged on the way. -/
def API.StartStatusConsumer (rt : Runtime) (a : API) :
    World → List (Nat × StatusEvent) → World × List ConsumerError
  | w, [] => (w, [])
  | w, (now, evt) :: rest =>
    if a.RStatus = false then (w, [])
    else
      let r := a.applyStatus rt w now evt
      let t := API.StartStatusConsumer rt a r.1 rest
      (t.1, r.2.toList ++ t.2)

/-! ## Rows named in the statements -/

/-- The row the status consumer saves for an event on a message it does not
take as final: the assignments to `Status`, `Operator` and `UpdatedAt`. -/
def updatedRow (rt : Runtime) (msg : Message) (now : Nat) (evt : StatusEvent) : Message :=
  { msg with
    Status := ToUpper rt evt.Status
    Operator := if evt.Operator ≠ "" then evt.Operator else msg.Operator
    UpdatedAt := now }

/-- The message row `API.CreateMessage` creates for a valid request of kind `k`. -/
def createdRow (a : API) (w : World) (now : Nat) (req : HTTPRequest) (r : CreateMessageRequest)
    (k : String) : Message :=
  { ID := nextMessageID w.messages, ClientID := req.XClientID, To := r.To, Body := r.Body,
    Typ := k, PriceMinor := (if k = "PRIORITY" then a.PricePriority else a.PriceNormal),
    Status := "CREATED", Operator := "", CreatedAt := now, UpdatedAt := now }

/-- A row after the status update of the publish loop. -/
def queuedRow (m : Message) (now : Nat) : Message :=
  { m with Status := "QUEUED", UpdatedAt := now }

/-! ## Sample data -/

/-- A ledger holding the client `c1` with balance 1000 and prices 100 and 250. -/
def sampleSvc : Svc :=
  { clients := [{ ClientID := "c1", BalanceMinor := 1000, CreatedAt := 0, UpdatedAt := 0 }]
    pricePlans := [{ ClientID := "c1", NormalPriceMinor := 100, PriorityPriceMinor := 250 }]
    transactions := [] }

/-- A ledger holding the client whose id is the empty string, created with
balance 1000 and prices 100 and 250. -/
def emptyIdSvc : Svc := Svc.CreateClient ⟨[], [], []⟩ 0 "" 1000 100 250

/-- Digits of a decimal key, most significant first. -/
def digitsValue : List Char → Nat → Option Nat
  | [], acc => some acc
  | c :: cs, acc => if c.isDigit then digitsValue cs (acc * 10 + (c.toNat - 48)) else none

/-- A runtime for the examples: keys are read as unsigned decimals, and runes
beyond ASCII are left as they are. -/
def sampleRuntime : Runtime :=
  { upperRune := fun c => c
    coerceID := fun s =>
      match s.data with
      | [] => none
      | cs => (digitsValue cs 0).map Int.ofNat }

/-- An orchestrator wired as `main` wires it, with prices 100 and 250. -/
def sampleAPI : API :=
  { PriceNormal := 100, PricePriority := 250, CM := true, RStatus := true }

/-- A world with the sample ledger, no message, and the publish loop running. -/
def sampleWorld : World :=
  { ledger := sampleSvc, messages := [], ReadyQ := [], publisherRunning := true,
    topicNormal := [], topicPriority := [], rpcLog := [] }

/-- A message of client `c1`, charged 100, in status `QUEUED`. -/
def sampleMessage : Message :=
  { ID := 1, ClientID := "c1", To := "0912", Body := "hello", Typ := "NORMAL", PriceMinor := 100,
    Status := "QUEUED", Operator := "", CreatedAt := 1, UpdatedAt := 2 }

/-- The sample world holding the sample message. -/
def queuedWorld : World := { sampleWorld with messages := [sampleMessage] }

/-- A status event for message 1 with the given status. -/
def sampleEvent (status : String) : StatusEvent :=
  { MessageID := "1", Status := status, Operator := "mock", At := "" }

/-- A valid submission of client `c1`: body `hello`, kind left to default. -/
def sampleRequest : HTTPRequest :=
  { XClientID := "c1", json := .ok { To := "0912", Body := "hello", Typ := "" } }

/-- A submission of client `c1` whose body has exactly 161 characters. -/
def longBodyRequest : HTTPRequest :=
  { XClientID := "c1"
    json := .ok { To := "0912", Body := String.mk (List.replicate 161 'a'), Typ := "" } }

/-- The sample world with the balance of `c1` set to 50. -/
def poorWorld : World :=
  { sampleWorld with
    ledger := { sampleSvc with
      clients := [{ ClientID := "c1", BalanceMinor := 50, CreatedAt := 0, UpdatedAt := 0 }] } }

/-- The sample world after the sample submission at time 1. -/
def sagaSubmitted : World :=
  (sampleAPI.CreateMessage sampleRuntime sampleWorld 1 true sampleRequest).1

/-- Then after the publish loop ran with a successful write at time 2. -/
def sagaPublished : World := sampleAPI.PublishMessage 2 sagaSubmitted [true]

/-- Then after an `ACCEPTED` event at time 3. -/
def sagaAccepted : World :=
  (sampleAPI.StartStatusConsumer sampleRuntime sagaPublished [(3, sampleEvent "ACCEPTED")]).1

/-- Then after a `FAILED` event at time 4. -/
def sagaFailed : World :=
  (sampleAPI.StartStatusConsumer sampleRuntime sagaAccepted [(4, sampleEvent "FAILED")]).1

/-! ## The publish loop, step by step -/

/-- First half of an iteration of `API.PublishMessage` on the message `m`: the
record is built and written to the topic of the kind of `m`. A failed write is
followed by the refund and by `return`. -/
def API.publishWrite (a : API) (w : World) (now : Nat) (m : Message) (writeOk : Bool) : World :=
  let kmsg := kafkaMessageOf m
  if writeOk = false then
    let w1 := (a.refund w now m.ClientID m.PriceMinor (Itoa m.ID)).1
    { w1 with publisherRunning := false }
  else if m.Typ = "PRIORITY" then { w with topicPriority := w.topicPriority ++ [kmsg] }
  else { w with topicNormal := w.topicNormal ++ [kmsg] }

/-- Second half of an iteration, after a successful write: the update
`Model(&Message{}).Where("id = ?", m.ID).Update("status", "QUEUED")`. -/
def API.markQueued (w : World) (now : Nat) (m : Message) : World :=
  { w with messages := updateStatus w.messages now m.ID "QUEUED" }

/-- The orchestrator with the position of its publish loop: `inFlight` is the
message whose record has been written and whose status update has not run
yet. -/
structure Sys where
  world : World
  inFlight : Option Message
  deriving DecidableEq, Repr

/-- The steps of the orchestrator: a submission, the write of the next handed
message to its topic, the status update that follows a successful write, and
the application of a status event. -/
inductive Action where
  | submit (now : Nat) (createOk : Bool) (req : HTTPRequest)
  | publish (now : Nat) (writeOk : Bool)
  | update (now : Nat)
  | status (now : Nat) (evt : StatusEvent)

/-- One step. A step that is not enabled leaves the system as it is: the loop
writes only when it is running, has no update pending and a message is
waiting; it updates only after a successful write. -/
def Sys.step (rt : Runtime) (a : API) (s : Sys) : Action → Sys
  | .submit now createOk req =>
    { s with world := (a.CreateMessage rt s.world now createOk req).1 }
  | .publish now writeOk =>
    match s.inFlight, s.world.publisherRunning, s.world.ReadyQ with
    | none, true, m :: q =>
      { world := a.publishWrite { s.world with ReadyQ := q } now m writeOk
        inFlight := if writeOk then some m else none }
    | _, _, _ => s
  | .update now =>
    match s.inFlight with
    | some m => { world := API.markQueued s.world now m, inFlight := none }
    | none => s
  | .status now evt => { s with world := (a.applyStatus rt s.world now evt).1 }

/-- A run of steps. -/
def Sys.run (rt : Runtime) (a : API) : Sys → List Action → Sys
  | s, [] => s
  | s, act :: rest => Sys.run rt a (s.step rt a act) rest

/-- A second valid submission of client `c1`, of kind `PRIORITY`. -/
def priorityRequest : HTTPRequest :=
  { XClientID := "c1", json := .ok { To := "0935", Body := "second", Typ := "priority" } }

/-- The sample world after two submissions, both handed to the publish loop. -/
def twoHanded : World :=
  (sampleAPI.CreateMessage sampleRuntime sagaSubmitted 2 true priorityRequest).1

/-- That world after the publish loop ran with a failed write for the first
message and a successful one for the second. -/
def twoHandedRun : World := sampleAPI.PublishMessage 3 twoHanded [false, true]

/-- The sample system: the sample world, no update pending. -/
def sampleSys : Sys := { world := sampleWorld, inFlight := none }

/-- The sample submission is written to its topic, and the worker's `ACCEPTED`
and `FAILED` events are applied before the status update of the publish loop
runs. -/
def raceBeforeUpdate : Sys :=
  sampleSys.run sampleRuntime sampleAPI
    [.submit 1 true sampleRequest, .publish 2 true,
     .status 3 (sampleEvent "ACCEPTED"), .status 4 (sampleEvent "FAILED")]

/-! ## Listing (`API.ListMyMessages`) -/

/-- Go `a * b` on `int64`, the size of `int` on the platforms the service is
built for. -/
def mul64 (a b : Int) : Int := wrap64 (a * b)

/-- Go `strconv.Atoi`: an optional sign, then one or more decimal digits and
nothing else; a value outside `int` is an error. -/
def Atoi (s : String) : Option Int :=
  let signed : Bool × List Char :=
    match s.data with
    | '-' :: ds => (true, ds)
    | '+' :: ds => (false, ds)
    | ds => (false, ds)
  match signed.2 with
  | [] => none
  | ds =>
    match digitsValue ds 0 with
    | none => none
    | some n =>
      let v : Int := if signed.1 then -(n : Int) else (n : Int)
      if minInt64 ≤ v ∧ v ≤ maxInt64 then some v else none

/-- Go `unicode.IsSpace`. -/
def isSpace (c : Char) : Bool :=
  let n := c.toNat
  (9 ≤ n && n ≤ 13) || n == 32 || n == 133 || n == 160 || n == 5760 ||
    (8192 ≤ n && n ≤ 8202) || n == 8232 || n == 8233 || n == 8239 || n == 8287 || n == 12288

/-- Go `strings.TrimSpace`. -/
def TrimSpace (s : String) : String :=
  String.mk (((s.data.dropWhile isSpace).reverse.dropWhile isSpace).reverse)

/-- What the handler of `GET /messages` receives: the header `X-Client-ID` and
the values of the query parameters, empty when a parameter is absent. -/
structure ListRequest where
  XClientID : String
  limit : String
  page : String
  typ : String
  status : String
  deriving DecidableEq, Repr

/-- The query the handler builds: the client, the optional filters on `type`
and `status`, and the arguments of `Limit` and `Offset`; the order is
`created_at DESC`. -/
structure ListQuery where
  clientID : String
  typ : Option String
  status : Option String
  limit : Int
  offset : Int
  deriving DecidableEq, Repr

/-- Body of the answer of `GET /messages`. -/
inductive ListReply where
  | items (items : List Message) (page limit count : Int)
  | error (error detail : String)
  deriving DecidableEq, Repr

/-- The answer of `GET /messages`. -/
structure ListResponse where
  status : Nat
  body : ListReply
  deriving DecidableEq, Repr

/-- The effective limit: 20, replaced by the parameter when it parses to a
positive integer, which is first cut to 100. -/
def listLimit (v : String) : Int :=
  if v ≠ "" then
    match Atoi v with
    | some n => if n > 0 then (if n > 100 then 100 else n) else 20
    | none => 20
  else 20

/-- The effective page: 0, replaced by the parameter when it parses to an
integer that is not negative. -/
def listPage (v : String) : Int :=
  if v ≠ "" then
    match Atoi v with
    | some n => if n ≥ 0 then n else 0
    | none => 0
  else 0

/-- The query of `API.ListMyMessages` for a request. -/
def listQuery (rt : Runtime) (req : ListRequest) : ListQuery :=
  let limit := listLimit req.limit
  let page := listPage req.page
  let fType := ToUpper rt (TrimSpace req.typ)
  let fStatus := ToUpper rt (TrimSpace req.status)
  { clientID := req.XClientID
    typ := if fType = "NORMAL" ∨ fType = "PRIORITY" then some fType else none
    status :=
      if fStatus = "QUEUED" ∨ fStatus = "ACCEPTED" ∨ fStatus = "DELIVERED" ∨ fStatus = "FAILED" ∨
          fStatus = "EXPIRED" then some fStatus
      else none
    limit := limit
    offset := mul64 page limit }

/-- Handler `API.ListMyMessages`; `find` is the storage engine running the
query, with the rows it returns or its error. -/
def API.ListMyMessages (rt : Runtime) (find : ListQuery → Except String (List Message))
    (req : ListRequest) : ListResponse :=
  if req.XClientID = "" then
    ⟨400, .error "missing_client_id" "X-Client-ID header required"⟩
  else
    let limit := listLimit req.limit
    let page := listPage req.page
    match find (listQuery rt req) with
    | .error e => ⟨500, .error "db_error" e⟩
    | .ok msgs => ⟨200, .items msgs page limit msgs.length⟩

/-- A storage engine for the examples: the rows of the queued sample world
that belong to the client and pass the filters, cut to the limit. -/
def sampleFind (q : ListQuery) : Except String (List Message) :=
  .ok (((queuedWorld.messages.filter (fun m => m.ClientID == q.clientID)).filter
    (fun m => (q.typ.all (fun t => m.Typ == t)) && (q.status.all (fun s => m.Status == s)))).take
      q.limit.toNat)

/-! ## Delivery simulator (`messenger-worker/handler/worker.go`) -/

/-- The queued message the worker decodes from the inbound topic. -/
structure InMsg where
  MessageID : String
  ClientID : String
  To : String
  Body : String
  Typ : String
  Price : Int
  CreatedAt : String
  deriving DecidableEq, Repr

/-- The status event the worker publishes. -/
structure StatusEvt where
  MessageID : String
  Status : String
  Operator : String
  At : String
  TraceID : String
  Worker : String
  deriving DecidableEq, Repr

/-- A `kafka.Message` of the status topic. -/
structure StatusRecord where
  Key : String
  Value : StatusEvt
  Headers : List Header
  deriving DecidableEq, Repr

/-- The configuration held by `Worker`: its identity, the three durations and
the failure percentage (`WorkerName` is the field `Worker`). -/
structure Worker where
  Operator : String
  WorkerName : String
  AcceptLatency : Int
  DeliverMin : Int
  DeliverMax : Int
  FailRatio : Int
  deriving DecidableEq, Repr

/-- What the worker acts on: the records handed to `WStatus.WriteMessages`, in
order, and those of them that were written to the status topic. -/
structure WorkerState where
  handed : List StatusRecord
  topicStatus : List StatusRecord
  deriving DecidableEq, Repr

/-- Outcome of `ReadMessage` followed by `json.Unmarshal`: a read error (with
whether the context is done), or a record whose value decodes or not. -/
inductive Inbound where
  | readError (ctxDone : Bool)
  | badJSON
  | message (m : InMsg)
  deriving DecidableEq, Repr

/-- What one iteration takes from outside: the trace id of `uuid.NewString`,
the two readings of the clock, whether the context is done before the delivery
timer fires, the draw of `rand.Intn(100)`, and the outcomes of the two
writes. -/
structure Draws where
  trace : String
  at1 : String
  at2 : String
  cancelled : Bool
  r : Int
  writeOk1 : Bool
  writeOk2 : Bool
  deriving DecidableEq, Repr

/-- The record `Worker.publish` builds for an event. -/
def recordOf (evt : StatusEvt) : StatusRecord :=
  { Key := evt.MessageID
    Value := evt
    Headers := [⟨"x-msg-id", evt.MessageID⟩, ⟨"x-status", evt.Status⟩,
                ⟨"x-operator", evt.Operator⟩, ⟨"x-trace-id", evt.TraceID⟩,
                ⟨"x-worker", evt.Worker⟩] }

/-- Method `Worker.publish`: the record is handed to `WriteMessages`; the
second component is whether the write succeeded. -/
def Worker.publish (st : WorkerState) (evt : StatusEvt) (writeOk : Bool) : WorkerState × Bool :=
  ({ handed := st.handed ++ [recordOf evt]
     topicStatus := if writeOk then st.topicStatus ++ [recordOf evt] else st.topicStatus },
   writeOk)

/-- Method `Worker.shouldFail`, on the draw `r` of `rand.Intn(100)`. -/
def Worker.shouldFail (w : Worker) (r : Int) : Bool :=
  if w.FailRatio ≤ 0 then false
  else if w.FailRatio ≥ 100 then true
  else decide (r < w.FailRatio)

/-- One iteration of the loop of `Worker.loop`. The second component is
whether the loop goes on (`false` after `return`). Sleeps and timers are not
represented beyond the choice `cancelled` of the `select`. -/
def Worker.iteration (w : Worker) (st : WorkerState) (inb : Inbound) (d : Draws) :
    WorkerState × Bool :=
  match inb with
  | .readError ctxDone => (st, !ctxDone)
  | .badJSON => (st, true)
  | .message m =>
    let trace := d.trace
    let st1 := (Worker.publish st
      { MessageID := m.MessageID, Status := "ACCEPTED", Operator := w.Operator, At := d.at1,
        TraceID := trace, Worker := w.WorkerName } d.writeOk1).1
    if d.cancelled then (st1, false)
    else
      let status := if w.shouldFail d.r then "FAILED" else "DELIVERED"
      let st2 := (Worker.publish st1
        { MessageID := m.MessageID, Status := status, Operator := w.Operator, At := d.at2,
          TraceID := trace, Worker := w.WorkerName } d.writeOk2).1
      (st2, true)

/-- The loop of `Worker.loop` on what it reads, until it returns. -/
def Worker.loop (w : Worker) : WorkerState → List (Inbound × Draws) → WorkerState
  | st, [] => st
  | st, (inb, d) :: rest =>
    match w.iteration st inb d with
    | (st1, true) => Worker.loop w st1 rest
    | (st1, false) => st1

/-- A worker of operator `mock` that fails 30 deliveries in 100. -/
def sampleWorker : Worker :=
  { Operator := "mock", WorkerName := "w-1", AcceptLatency := 10, DeliverMin := 50,
    DeliverMax := 200, FailRatio := 30 }

/-- The queued message 1 as the worker decodes it. -/
def sampleInMsg : InMsg :=
  { MessageID := "1", ClientID := "c1", To := "0912", Body := "hello", Typ := "NORMAL",
    Price := 100, CreatedAt := "" }

/-- Draws of an iteration that is not cancelled, with the draw 29 and both
writes succeeding. -/
def sampleDraws : Draws :=
  { trace := "t-1", at1 := "10:00:00", at2 := "10:00:01", cancelled := false, r := 29,
    writeOk1 := true, writeOk2 := true }

/-! ## Lemmas on int64 arithmetic and on the tables -/

theorem wrap64_of_isInt64 {x : Int} (h : isInt64 x) : wrap64 x = x := by
  unfold isInt64 minInt64 maxInt64 at h
  unfold wrap64
  omega

theorem isInt64_wrap64 (x : Int) : isInt64 (wrap64 x) := by
  unfold isInt64 minInt64 maxInt64 wrap64
  omega

theorem firstClient_cons (r : Client) (rs : List Client) (id : String) :
    firstClient (r :: rs) id = if r.ClientID = id then some r else firstClient rs id := by
  unfold firstClient
  by_cases h : r.ClientID = id
  · simp [List.find?_cons, h]
  · have hb : (r.ClientID == id) = false := by simp [h]
    simp [List.find?_cons, hb, h]

theorem firstClient_upsertClient_self (rows : List Client) (c : Client) :
    firstClient (upsertClient rows c) c.ClientID = some c := by
  induction rows with
  | nil => simp [upsertClient, firstClient_cons]
  | cons r rs ih =>
    unfold upsertClient
    by_cases h : r.ClientID = c.ClientID
    · simp [h, firstClient_cons]
    · simp [h, firstClient_cons, ih]

theorem firstClient_upsertClient_other (rows : List Client) (c : Client) (id : String)
    (hne : id ≠ c.ClientID) :
    firstClient (upsertClient rows c) id = firstClient rows id := by
  have h1 : ¬ c.ClientID = id := fun h => hne h.symm
  induction rows with
  | nil => simp [upsertClient, firstClient_cons, h1]
  | cons r rs ih =>
    unfold upsertClient
    by_cases h : r.ClientID = c.ClientID
    · have h2 : ¬ r.ClientID = id := fun h3 => h1 (h ▸ h3)
      simp [h, firstClient_cons, h1, h2]
    · simp [h, firstClient_cons, ih]

theorem firstClient_key {rows : List Client} {id : String} {c : Client}
    (h : firstClient rows id = some c) : c.ClientID = id := by
  unfold firstClient at h
  have := List.find?_some h
  simpa using this

theorem sub64_exact {a b : Int} (h : isInt64 (a - b)) : sub64 a b = a - b :=
  wrap64_of_isInt64 h

theorem add64_exact {a b : Int} (h : isInt64 (a + b)) : add64 a b = a + b :=
  wrap64_of_isInt64 h

theorem neg64_exact {a : Int} (h : isInt64 (-a)) : neg64 a = -a :=
  wrap64_of_isInt64 h

theorem balanceOf_some {s : Svc} {id : String} {b : Int} (h : s.balanceOf id = some b) :
    ∃ c, firstClient s.clients id = some c ∧ c.BalanceMinor = b := by
  unfold Svc.balanceOf at h
  cases hc : firstClient s.clients id with
  | none => simp [hc] at h
  | some c => exact ⟨c, rfl, by simpa [hc] using h⟩

theorem balanceOf_none {s : Svc} {id : String} (h : s.balanceOf id = none) :
    firstClient s.clients id = none := by
  unfold Svc.balanceOf at h
  simpa using h

/-- A successful `Debit`, spelled out on the row it read. -/
theorem Debit_of_sufficient {s : Svc} {id : String} {c : Client} (now : Nat) (amount : Int)
    (ref : String) (hc : firstClient s.clients id = some c) (hge : ¬ c.BalanceMinor < amount)
    (hid : id ≠ "") :
    s.Debit now id amount ref =
      ({ s with
          clients := upsertClient s.clients
            { c with BalanceMinor := sub64 c.BalanceMinor amount, UpdatedAt := now }
          transactions := createTransaction s.transactions now id (neg64 amount) "DEBIT" ref },
       .ok (sub64 c.BalanceMinor amount)) := by
  have hne : ¬ c.ClientID = "" := by rw [firstClient_key hc]; exact hid
  simp [Svc.Debit, hc, hge, saveClient, hne]

/-- A `Refund` on an existing client, spelled out on the row it read. -/
theorem Refund_of_existing {s : Svc} {id : String} {c : Client} (now : Nat) (amount : Int)
    (ref : String) (hc : firstClient s.clients id = some c) (hid : id ≠ "") :
    s.Refund now id amount ref =
      ({ s with
          clients := upsertClient s.clients
            { c with BalanceMinor := add64 c.BalanceMinor amount, UpdatedAt := now }
          transactions := createTransaction s.transactions now id amount "REFUND" ref },
       .ok (add64 c.BalanceMinor amount)) := by
  have hne : ¬ c.ClientID = "" := by rw [firstClient_key hc]; exact hid
  simp [Svc.Refund, hc, saveClient, hne]

theorem balanceOf_Debit_ok {s : Svc} {id : String} {b : Int} (now : Nat) (amount : Int)
    (ref : String) (hb : s.balanceOf id = some b) (hge : ¬ b < amount) (hid : id ≠ "") :
    (s.Debit now id amount ref).1.balanceOf id = some (sub64 b amount) := by
  obtain ⟨c, hc, rfl⟩ := balanceOf_some hb
  have hk := firstClient_key hc
  subst hk
  rw [Debit_of_sufficient now amount ref hc hge hid]
  have := firstClient_upsertClient_self s.clients
    { c with BalanceMinor := sub64 c.BalanceMinor amount, UpdatedAt := now }
  simp [Svc.balanceOf, this]

theorem balanceOf_Refund_ok {s : Svc} {id : String} {b : Int} (now : Nat) (amount : Int)
    (ref : String) (hb : s.balanceOf id = some b) (hid : id ≠ "") :
    (s.Refund now id amount ref).1.balanceOf id = some (add64 b amount) := by
  obtain ⟨c, hc, rfl⟩ := balanceOf_some hb
  have hk := firstClient_key hc
  subst hk
  rw [Refund_of_existing now amount ref hc hid]
  have := firstClient_upsertClient_self s.clients
    { c with BalanceMinor := add64 c.BalanceMinor amount, UpdatedAt := now }
  simp [Svc.balanceOf, this]

theorem Debit_insufficient {s : Svc} {id : String} {b : Int} (now : Nat) (amount : Int)
    (ref : String) (hb : s.balanceOf id = some b) (hlt : b < amount) :
    s.Debit now id amount ref = (s, .error .ErrInsufficientFunds) := by
  obtain ⟨c, hc, rfl⟩ := balanceOf_some hb
  simp [Svc.Debit, hc, hlt]

theorem Debit_result_ok {s : Svc} {id : String} {b : Int} (now : Nat) (amount : Int)
    (ref : String) (hb : s.balanceOf id = some b) (hge : ¬ b < amount) (hid : id ≠ "") :
    (s.Debit now id amount ref).2 = .ok (sub64 b amount) := by
  obtain ⟨c, hc, rfl⟩ := balanceOf_some hb
  rw [Debit_of_sufficient now amount ref hc hge hid]

theorem Refund_result_ok {s : Svc} {id : String} {b : Int} (now : Nat) (amount : Int)
    (ref : String) (hb : s.balanceOf id = some b) (hid : id ≠ "") :
    (s.Refund now id amount ref).2 = .ok (add64 b amount) := by
  obtain ⟨c, hc, rfl⟩ := balanceOf_some hb
  rw [Refund_of_existing now amount ref hc hid]

/-! ## The ledger contract -/

/-- On the client whose id is empty, `Save` is an INSERT that the engine
refuses: a `Debit` that passes the balance check fails and changes nothing. -/
theorem Debit_of_empty_id {s : Svc} {b : Int} (now : Nat) (amount : Int) (ref : String)
    (hb : s.balanceOf "" = some b) (hge : ¬ b < amount) :
    s.Debit now "" amount ref = (s, .error .ErrStorage) := by
  obtain ⟨c, hc, rfl⟩ := balanceOf_some hb
  have hk := firstClient_key hc
  simp [Svc.Debit, hc, hge, saveClient, hk]

/-- On the client whose id is empty, `Refund` fails and changes nothing. -/
theorem Refund_of_empty_id {s : Svc} {b : Int} (now : Nat) (amount : Int) (ref : String)
    (hb : s.balanceOf "" = some b) :
    s.Refund now "" amount ref = (s, .error .ErrStorage) := by
  obtain ⟨c, hc, rfl⟩ := balanceOf_some hb
  have hk := firstClient_key hc
  simp [Svc.Refund, hc, saveClient, hk]

/-- C1, the claim as stated fails. A ledger holds the client whose id is the
empty string, with balance 1000. `Debit("", 100, "r")` passes the balance
check, but the save of the row is refused: the call fails with the storage
error and the ledger is unchanged, where the claim has it return 900. -/
theorem Debit_fails_on_empty_id :
    emptyIdSvc.balanceOf "" = some 1000 ∧
    ¬ ((1000 : Int) < 100) ∧
    emptyIdSvc.Debit 5 "" 100 "r" = (emptyIdSvc, .error .ErrStorage) ∧
    (emptyIdSvc.Debit 5 "" 100 "r").2 ≠ .ok (sub64 1000 100) :=
  ⟨by decide, by decide, by decide, by decide⟩

/-- C1, amended. Contract of `Svc.Debit`, for every ledger, client id, amount
and reference, in the `int64` arithmetic of the code. On an absent client the
call fails with `ErrNotFound` and the ledger is unchanged. On a client with
balance `b`: if `b < amount` the call fails with `ErrInsufficientFunds` and the
ledger is unchanged; otherwise, when the id is not the empty string, it
returns `b - amount`, that value is the stored balance, exactly one
transaction row is appended, with the client id, amount `-amount`, type `DEBIT`
and the reference, and no other client or price plan is touched. Here
`b - amount` and `-amount` are computed as the code computes them, on `int64`;
for an `int64` balance and a non-negative amount they are the exact difference
and negation. -/
theorem Debit_contract (s : Svc) (now : Nat) (id : String) (amount : Int) (ref : String) :
    (s.balanceOf id = none → s.Debit now id amount ref = (s, .error .ErrNotFound)) ∧
    (∀ b, s.balanceOf id = some b →
      (b < amount → s.Debit now id amount ref = (s, .error .ErrInsufficientFunds)) ∧
      (¬ b < amount → id ≠ "" →
        (s.Debit now id amount ref).2 = .ok (sub64 b amount) ∧
        (s.Debit now id amount ref).1.balanceOf id = some (sub64 b amount) ∧
        (s.Debit now id amount ref).1.transactions =
          s.transactions ++
            [{ ID := nextTransactionID s.transactions, ClientID := id,
               AmountMinor := neg64 amount, Typ := "DEBIT", Ref := ref, CreatedAt := now }] ∧
        (s.Debit now id amount ref).1.pricePlans = s.pricePlans ∧
        (∀ other, other ≠ id →
          (s.Debit now id amount ref).1.balanceOf other = s.balanceOf other) ∧
        (isInt64 b → 0 ≤ amount → sub64 b amount = b - amount ∧ neg64 amount = -amount))) := by
  refine ⟨fun hnone => ?_, fun b hb => ⟨fun hlt => ?_, fun hge hid => ?_⟩⟩
  · simp [Svc.Debit, balanceOf_none hnone]
  · exact Debit_insufficient now amount ref hb hlt
  · refine ⟨Debit_result_ok now amount ref hb hge hid,
      balanceOf_Debit_ok now amount ref hb hge hid, ?_, ?_, ?_, ?_⟩
    · obtain ⟨c, hc, rfl⟩ := balanceOf_some hb
      rw [Debit_of_sufficient now amount ref hc hge hid]
      rfl
    · obtain ⟨c, hc, rfl⟩ := balanceOf_some hb
      rw [Debit_of_sufficient now amount ref hc hge hid]
    · intro other hne
      obtain ⟨c, hc, rfl⟩ := balanceOf_some hb
      rw [Debit_of_sufficient now amount ref hc hge hid]
      have hk := firstClient_key hc
      simp only [Svc.balanceOf]
      rw [firstClient_upsertClient_other]
      simpa [hk] using hne
    · intro hr h0
      constructor
      · apply sub64_exact
        unfold isInt64 minInt64 maxInt64 at *
        omega
      · apply neg64_exact
        unfold isInt64 minInt64 maxInt64 at *
        omega

/-- C2, the claim as stated fails. On the ledger holding the client whose id
is the empty string, `Refund("", 100, "r")` fails with the storage error and
leaves the ledger unchanged, where the claim has it succeed with 1100. -/
theorem Refund_fails_on_empty_id :
    emptyIdSvc.balanceOf "" = some 1000 ∧
    emptyIdSvc.Refund 5 "" 100 "r" = (emptyIdSvc, .error .ErrStorage) ∧
    (emptyIdSvc.Refund 5 "" 100 "r").2 ≠ .ok (add64 1000 100) :=
  ⟨by decide, by decide, by decide⟩

/-- C2, amended. Contract of `Svc.Refund`, for every ledger, client id, amount
and reference, in the `int64` arithmetic of the code. On an absent client the
call fails with `ErrNotFound` and the ledger is unchanged. On a client with
balance `b` whose id is not the empty string it never fails: it returns
`b + amount`, that value is the stored balance, exactly one transaction row is
appended, with the client id, amount `amount`, type `REFUND` and the reference,
and no other client or price plan is touched. Here `b + amount` is computed as
the code computes it, on `int64`; it is the exact sum whenever that sum is an
`int64`. -/
theorem Refund_contract (s : Svc) (now : Nat) (id : String) (amount : Int) (ref : String) :
    (s.balanceOf id = none → s.Refund now id amount ref = (s, .error .ErrNotFound)) ∧
    (∀ b, s.balanceOf id = some b → id ≠ "" →
        (s.Refund now id amount ref).2 = .ok (add64 b amount) ∧
        (s.Refund now id amount ref).1.balanceOf id = some (add64 b amount) ∧
        (s.Refund now id amount ref).1.transactions =
          s.transactions ++
            [{ ID := nextTransactionID s.transactions, ClientID := id,
               AmountMinor := amount, Typ := "REFUND", Ref := ref, CreatedAt := now }] ∧
        (s.Refund now id amount ref).1.pricePlans = s.pricePlans ∧
        (∀ other, other ≠ id →
          (s.Refund now id amount ref).1.balanceOf other = s.balanceOf other) ∧
        (isInt64 (b + amount) → add64 b amount = b + amount)) := by
  refine ⟨fun hnone => ?_, fun b hb hid => ?_⟩
  · simp [Svc.Refund, balanceOf_none hnone]
  · refine ⟨Refund_result_ok now amount ref hb hid, balanceOf_Refund_ok now amount ref hb hid,
      ?_, ?_, ?_, add64_exact⟩
    · obtain ⟨c, hc, rfl⟩ := balanceOf_some hb
      rw [Refund_of_existing now amount ref hc hid]
      rfl
    · obtain ⟨c, hc, rfl⟩ := balanceOf_some hb
      rw [Refund_of_existing now amount ref hc hid]
    · intro other hne
      obtain ⟨c, hc, rfl⟩ := balanceOf_some hb
      rw [Refund_of_existing now amount ref hc hid]
      have hk := firstClient_key hc
      simp only [Svc.balanceOf]
      rw [firstClient_upsertClient_other]
      simpa [hk] using hne

/-- C3, the claim as stated fails. On the ledger holding the client whose id
is the empty string, with balance 1000, the amount 100 lies between 0 and the
balance, yet `Debit("", 100)` fails, and so does the `Refund("", 100)` that
follows; neither returns a balance. -/
theorem Debit_then_Refund_fails_on_empty_id :
    emptyIdSvc.balanceOf "" = some 1000 ∧
    (0 : Int) ≤ 100 ∧ (100 : Int) ≤ 1000 ∧
    (emptyIdSvc.Debit 5 "" 100 "a").2 = .error .ErrStorage ∧
    ((emptyIdSvc.Debit 5 "" 100 "a").1.Refund 6 "" 100 "b").2 = .error .ErrStorage ∧
    ((emptyIdSvc.Debit 5 "" 100 "a").1.Refund 6 "" 100 "b").2 ≠ .ok 1000 :=
  ⟨by decide, by decide, by decide, by decide, by decide, by decide⟩

/-- C3, amended. For every client whose id is not the empty string, with an
`int64` balance `b`, and every amount `a` with `0 ≤ a ≤ b`, `Debit(id, a)`
succeeds and returns `b - a`, the following `Refund(id, a)` succeeds and
returns `b`, and the stored balance is `b` again. -/
theorem Debit_then_Refund_restores (s : Svc) (now1 now2 : Nat) (id : String) (a b : Int)
    (ref1 ref2 : String) (hid : id ≠ "") (hb : s.balanceOf id = some b) (hrange : isInt64 b)
    (h0 : 0 ≤ a) (hab : a ≤ b) :
    (s.Debit now1 id a ref1).2 = .ok (b - a) ∧
    ((s.Debit now1 id a ref1).1.Refund now2 id a ref2).2 = .ok b ∧
    ((s.Debit now1 id a ref1).1.Refund now2 id a ref2).1.balanceOf id = some b := by
  have hge : ¬ b < a := by omega
  have hsub : sub64 b a = b - a := by
    apply sub64_exact
    unfold isInt64 minInt64 maxInt64 at *
    omega
  have hadd : add64 (b - a) a = b := by
    have : isInt64 (b - a + a) := by simpa using hrange
    rw [add64_exact this]
    omega
  have hb1 : (s.Debit now1 id a ref1).1.balanceOf id = some (b - a) := by
    rw [balanceOf_Debit_ok now1 a ref1 hb hge hid, hsub]
  refine ⟨by rw [Debit_result_ok now1 a ref1 hb hge hid, hsub], ?_, ?_⟩
  · rw [Refund_result_ok now2 a ref2 hb1 hid, hadd]
  · rw [balanceOf_Refund_ok now2 a ref2 hb1 hid, hadd]

/-- Witness of C1 on a ledger holding client `c1` with balance 1000: a debit of
1001 is refused, a debit of 100 returns 900, an unknown client is not found. -/
theorem Debit_contract_witness :
    sampleSvc.balanceOf "c1" = some 1000 ∧
    sampleSvc.Debit 5 "c1" 1001 "r" = (sampleSvc, .error .ErrInsufficientFunds) ∧
    (sampleSvc.Debit 5 "c1" 100 "r").2 = .ok 900 ∧
    (sampleSvc.Debit 5 "c1" 100 "r").1.balanceOf "c1" = some 900 ∧
    sampleSvc.Debit 5 "zz" 100 "r" = (sampleSvc, .error .ErrNotFound) :=
  ⟨by decide,
   ((Debit_contract sampleSvc 5 "c1" 1001 "r").2 1000 (by decide)).1 (by decide),
   (((Debit_contract sampleSvc 5 "c1" 100 "r").2 1000 (by decide)).2 (by decide) (by decide)).1,
   (((Debit_contract sampleSvc 5 "c1" 100 "r").2 1000 (by decide)).2 (by decide)
      (by decide)).2.1,
   (Debit_contract sampleSvc 5 "zz" 100 "r").1 (by decide)⟩

/-- Witness of C2 on the same ledger: a refund of 100 returns 1100, and a
refund to an unknown client is not found. -/
theorem Refund_contract_witness :
    sampleSvc.balanceOf "c1" = some 1000 ∧
    (sampleSvc.Refund 5 "c1" 100 "r").2 = .ok 1100 ∧
    (sampleSvc.Refund 5 "c1" 100 "r").1.balanceOf "c1" = some 1100 ∧
    sampleSvc.Refund 5 "zz" 100 "r" = (sampleSvc, .error .ErrNotFound) :=
  ⟨by decide,
   ((Refund_contract sampleSvc 5 "c1" 100 "r").2 1000 (by decide) (by decide)).1,
   ((Refund_contract sampleSvc 5 "c1" 100 "r").2 1000 (by decide) (by decide)).2.1,
   (Refund_contract sampleSvc 5 "zz" 100 "r").1 (by decide)⟩

/-- Witness of C3: client `c1`, balance 1000, amount 100. -/
theorem Debit_then_Refund_restores_witness :
    sampleSvc.balanceOf "c1" = some 1000 ∧
    (sampleSvc.Debit 5 "c1" 100 "a").2 = .ok (1000 - 100) ∧
    ((sampleSvc.Debit 5 "c1" 100 "a").1.Refund 6 "c1" 100 "b").2 = .ok 1000 ∧
    ((sampleSvc.Debit 5 "c1" 100 "a").1.Refund 6 "c1" 100 "b").1.balanceOf "c1" = some 1000 :=
  ⟨by decide,
   Debit_then_Refund_restores sampleSvc 5 6 "c1" 100 1000 "a" "b"
     (by decide) (by decide) (by decide) (by decide) (by decide)⟩

/-- A `Debit` of a non-negative amount keeps a non-negative `int64` balance
non-negative, whether it succeeds or fails. -/
theorem Debit_nonneg_of_nonneg_amount (s : Svc) (now : Nat) (id : String) (amount b : Int)
    (ref : String) (hb : s.balanceOf id = some b) (hrange : isInt64 b) (h0 : 0 ≤ b)
    (ha : 0 ≤ amount) :
    ∃ b1, (s.Debit now id amount ref).1.balanceOf id = some b1 ∧ 0 ≤ b1 ∧ isInt64 b1 := by
  by_cases hlt : b < amount
  · rw [Debit_insufficient now amount ref hb hlt]
    exact ⟨b, hb, h0, hrange⟩
  · by_cases hid : id = ""
    · subst hid
      rw [Debit_of_empty_id now amount ref hb hlt]
      exact ⟨b, hb, h0, hrange⟩
    · have h := balanceOf_Debit_ok now amount ref hb hlt hid
      have hr : isInt64 (b - amount) := by
        unfold isInt64 minInt64 maxInt64 at *
        omega
      rw [sub64_exact hr] at h
      exact ⟨b - amount, h, by omega, hr⟩

/-- A run of `Debit` calls with non-negative amounts keeps a non-negative
`int64` balance non-negative. -/
theorem debitAll_nonneg_of_nonneg_amounts (amounts : List Int) :
    ∀ (s : Svc) (now : Nat) (id : String) (b : Int), s.balanceOf id = some b → isInt64 b →
      0 ≤ b → (∀ a ∈ amounts, 0 ≤ a) →
      ∃ b1, (s.debitAll now id amounts).balanceOf id = some b1 ∧ 0 ≤ b1 := by
  induction amounts with
  | nil => intro s now id b hb _ h0 _; exact ⟨b, hb, h0⟩
  | cons a rest ih =>
    intro s now id b hb hr h0 hall
    obtain ⟨b1, hb1, h01, hr1⟩ :=
      Debit_nonneg_of_nonneg_amount s now id a b "" hb hr h0 (hall a (List.mem_cons_self a rest))
    exact ih (s.Debit now id a "").1 now id b1 hb1 hr1 h01
      (fun x hx => hall x (List.mem_cons_of_mem a hx))

/-- C4, evaluated at the failing input. A client created with the greatest
`int64` balance has a non-negative balance; `Debit` with the `int64` amount
`-1` passes the balance check, succeeds, and stores and returns the least
`int64`, a negative balance. -/
theorem Debit_drives_balance_negative :
    (Svc.CreateClient ⟨[], [], []⟩ 0 "c1" maxInt64 100 250).balanceOf "c1" = some maxInt64 ∧
    0 ≤ maxInt64 ∧ isInt64 (-1) ∧
    ((Svc.CreateClient ⟨[], [], []⟩ 0 "c1" maxInt64 100 250).Debit 1 "c1" (-1) "").2
      = .ok minInt64 ∧
    ((Svc.CreateClient ⟨[], [], []⟩ 0 "c1" maxInt64 100 250).Debit 1 "c1" (-1) "").1.balanceOf "c1"
      = some minInt64 ∧
    minInt64 < 0 :=
  ⟨by decide, by decide, by decide, by decide, by decide, by decide⟩


/-! ## Lemmas on the orchestrator -/

theorem runeCount_eq_length (s : String) : runeCount s = s.length := by
  have h : ∀ (l : List Char) (n : Nat), l.foldl (fun n _ => n + 1) n = n + l.length := by
    intro l
    induction l with
    | nil => intro n; rfl
    | cons c cs ih =>
      intro n
      rw [List.foldl_cons, ih, List.length_cons]
      omega
  unfold runeCount
  rw [h]
  show 0 + s.data.length = s.data.length
  omega

theorem ToUpper_ACCEPTED (rt : Runtime) : ToUpper rt "ACCEPTED" = "ACCEPTED" := rfl
theorem ToUpper_DELIVERED (rt : Runtime) : ToUpper rt "DELIVERED" = "DELIVERED" := rfl
theorem ToUpper_FAILED (rt : Runtime) : ToUpper rt "FAILED" = "FAILED" := rfl
theorem ToUpper_EXPIRED (rt : Runtime) : ToUpper rt "EXPIRED" = "EXPIRED" := rfl

theorem isFinal_of_terminal (rt : Runtime) {st : String}
    (h : st = "DELIVERED" ∨ st = "FAILED" ∨ st = "EXPIRED") : isFinal rt st = true := by
  rcases h with h | h | h <;> subst h <;> rfl

theorem isFinal_ACCEPTED (rt : Runtime) : isFinal rt "ACCEPTED" = false := rfl

theorem refund_world (a : API) (w : World) (now : Nat) (clientID : String) (amount : Int)
    (ref : String) (hCM : a.CM = true) :
    (a.refund w now clientID amount ref).1 =
      { w with
        ledger := (Server.Refund w.ledger now ⟨clientID, amount, ref⟩).1
        rpcLog := w.rpcLog ++ [.Refund ⟨clientID, amount, ref⟩] } := by
  unfold API.refund
  simp only [hCM]
  cases h : (Server.Refund w.ledger now ⟨clientID, amount, ref⟩).2 <;> simp [h]

theorem findMessage_cons (r : Message) (rs : List Message) (id : Int) :
    (r :: rs).find? (fun m => m.ID == id) =
      if r.ID = id then some r else rs.find? (fun m => m.ID == id) := by
  by_cases h : r.ID = id
  · simp [List.find?_cons, h]
  · have hb : (r.ID == id) = false := by simp [h]
    simp [List.find?_cons, hb, h]

theorem findMessage_key {rows : List Message} {id : Int} {m : Message}
    (h : rows.find? (fun m => m.ID == id) = some m) : m.ID = id := by
  have := List.find?_some h
  simpa using this

theorem findMessage_saveMessage (rows : List Message) (m : Message) :
    (saveMessage rows m).find? (fun r => r.ID == m.ID) = some m := by
  induction rows with
  | nil => simp [saveMessage, findMessage_cons]
  | cons r rs ih =>
    unfold saveMessage
    by_cases h : r.ID = m.ID
    · simp [h, findMessage_cons]
    · simp [h, findMessage_cons, ih]

theorem findMessage_updateStatus (rows : List Message) (now : Nat) (id : Int) (st : String) :
    (updateStatus rows now id st).find? (fun r => r.ID == id) =
      (rows.find? (fun r => r.ID == id)).map
        (fun r => { r with Status := st, UpdatedAt := now }) := by
  induction rows with
  | nil => simp [updateStatus]
  | cons r rs ih =>
    unfold updateStatus at ih ⊢
    rw [List.map_cons, findMessage_cons, findMessage_cons]
    by_cases h : r.ID = id
    · simp [h]
    · simp [h, ih]

theorem foldl_max_le (l : List Int) : ∀ (acc : Int),
    acc ≤ l.foldl max acc ∧ ∀ x ∈ l, x ≤ l.foldl max acc := by
  induction l with
  | nil => intro acc; simp
  | cons y ys ih =>
    intro acc
    obtain ⟨h1, h2⟩ := ih (max acc y)
    refine ⟨le_trans (le_max_left acc y) h1, ?_⟩
    intro x hx
    rcases List.mem_cons.mp hx with rfl | hx
    · exact le_trans (le_max_right acc x) h1
    · exact h2 x hx

theorem lt_nextMessageID {rows : List Message} {r : Message} (h : r ∈ rows) :
    r.ID < nextMessageID rows := by
  unfold nextMessageID
  have := (foldl_max_le (rows.map (fun m => m.ID)) 0).2 r.ID (List.mem_map_of_mem _ h)
  omega

theorem findMessage_append_fresh (rows : List Message) (m : Message)
    (h : m.ID = nextMessageID rows) :
    (rows ++ [m]).find? (fun r => r.ID == m.ID) = some m := by
  rw [List.find?_append]
  have hnone : rows.find? (fun r => r.ID == m.ID) = none := by
    rw [List.find?_eq_none]
    intro r hr
    have := lt_nextMessageID hr
    simp
    omega
  simp [hnone]

/-! ## The status consumer -/

/-- An event for a message the consumer takes as final changes nothing. -/
theorem applyStatus_of_isFinal (rt : Runtime) (a : API) (w : World) (now : Nat)
    (evt : StatusEvent) {msg : Message}
    (hfind : firstMessage rt w.messages evt.MessageID = some msg)
    (hfin : isFinal rt msg.Status = true) :
    a.applyStatus rt w now evt = (w, none) := by
  simp [API.applyStatus, hfind, hfin]

theorem firstMessage_of_coerce {rt : Runtime} {rows : List Message} {key : String} {id : Int}
    (h : rt.coerceID key = some id) :
    firstMessage rt rows key = rows.find? (fun m => m.ID == id) := by
  simp [firstMessage, h]

/-- Once the consumer takes a message as final, a run of events naming it
changes nothing and logs no error. -/
theorem StartStatusConsumer_of_isFinal (rt : Runtime) (a : API) (id : Int)
    (evts : List (Nat × StatusEvent)) :
    ∀ (w : World) (msg : Message), w.messages.find? (fun m => m.ID == id) = some msg →
      isFinal rt msg.Status = true →
      (∀ e ∈ evts, rt.coerceID e.2.MessageID = some id) →
      a.StartStatusConsumer rt w evts = (w, []) := by
  induction evts with
  | nil => intro w msg _ _ _; rfl
  | cons e rest ih =>
    intro w msg hfind hfin hall
    obtain ⟨now, evt⟩ := e
    have hc := hall (now, evt) (List.mem_cons_self _ _)
    have hstep : a.applyStatus rt w now evt = (w, none) :=
      applyStatus_of_isFinal rt a w now evt (by rw [firstMessage_of_coerce hc]; exact hfind) hfin
    have hrest := ih w msg hfind hfin (fun x hx => hall x (List.mem_cons_of_mem _ hx))
    unfold API.StartStatusConsumer
    by_cases hR : a.RStatus = false
    · simp [hR]
    · simp [hR, hstep, hrest]

/-- C5. Status events are no-ops on terminal messages. For every world, every
status event (any status, any operator) and every message the event names
whose stored status is `DELIVERED`, `FAILED` or `EXPIRED`, the transaction of
the status consumer returns the world as it was — the message row, the ledger
and the trace of ledger calls included, so no refund is issued — and ends
without error; the consumer loop run on that event logs nothing. -/
theorem status_event_on_terminal_is_noop (rt : Runtime) (a : API) (w : World) (now : Nat)
    (evt : StatusEvent) (msg : Message)
    (hfind : firstMessage rt w.messages evt.MessageID = some msg)
    (hterm : msg.Status = "DELIVERED" ∨ msg.Status = "FAILED" ∨ msg.Status = "EXPIRED") :
    a.applyStatus rt w now evt = (w, none) ∧
    a.StartStatusConsumer rt w [(now, evt)] = (w, []) := by
  have hstep := applyStatus_of_isFinal rt a w now evt hfind (isFinal_of_terminal rt hterm)
  refine ⟨hstep, ?_⟩
  unfold API.StartStatusConsumer
  by_cases hR : a.RStatus = false
  · simp [hR]
  · simp [hR, hstep, API.StartStatusConsumer]

/-- Witness of C5: the world reached by a first `DELIVERED` event for the
queued sample message; the message is `DELIVERED`, and a second `DELIVERED`
event leaves that world as it is, without error. -/
theorem status_event_on_terminal_is_noop_witness :
    ((sampleAPI.applyStatus sampleRuntime queuedWorld 3 (sampleEvent "DELIVERED")).1.statusOf 1
      = some "DELIVERED") ∧
    sampleAPI.applyStatus sampleRuntime
        (sampleAPI.applyStatus sampleRuntime queuedWorld 3 (sampleEvent "DELIVERED")).1 4
        (sampleEvent "DELIVERED")
      = ((sampleAPI.applyStatus sampleRuntime queuedWorld 3 (sampleEvent "DELIVERED")).1, none) ∧
    sampleAPI.StartStatusConsumer sampleRuntime
        (sampleAPI.applyStatus sampleRuntime queuedWorld 3 (sampleEvent "DELIVERED")).1
        [(4, sampleEvent "DELIVERED")]
      = ((sampleAPI.applyStatus sampleRuntime queuedWorld 3 (sampleEvent "DELIVERED")).1, []) :=
  ⟨by decide,
   status_event_on_terminal_is_noop sampleRuntime sampleAPI
     (sampleAPI.applyStatus sampleRuntime queuedWorld 3 (sampleEvent "DELIVERED")).1 4
     (sampleEvent "DELIVERED")
     { sampleMessage with Status := "DELIVERED", Operator := "mock", UpdatedAt := 3 }
     (by decide) (by decide)⟩

theorem StartStatusConsumer_of_no_reader (rt : Runtime) (a : API) (w : World)
    (evts : List (Nat × StatusEvent)) (hR : a.RStatus = false) :
    a.StartStatusConsumer rt w evts = (w, []) := by
  cases evts with
  | nil => rfl
  | cons e rest => simp [API.StartStatusConsumer, hR]

theorem StartStatusConsumer_cons (rt : Runtime) (a : API) (w : World) (now : Nat)
    (evt : StatusEvent) (rest : List (Nat × StatusEvent)) (hR : a.RStatus = true) :
    a.StartStatusConsumer rt w ((now, evt) :: rest) =
      ((a.StartStatusConsumer rt (a.applyStatus rt w now evt).1 rest).1,
       (a.applyStatus rt w now evt).2.toList ++
         (a.StartStatusConsumer rt (a.applyStatus rt w now evt).1 rest).2) := by
  simp [API.StartStatusConsumer, hR]

/-- An event whose status is neither `FAILED` nor `EXPIRED`, for a message the
consumer does not take as final: the row gets the status, no RPC is issued. -/
theorem applyStatus_plain (rt : Runtime) (a : API) (w : World) (now : Nat)
    (evt : StatusEvent) {msg : Message}
    (hfind : firstMessage rt w.messages evt.MessageID = some msg)
    (hfin : isFinal rt msg.Status = false)
    (hs : ¬ (ToUpper rt evt.Status = "FAILED" ∨ ToUpper rt evt.Status = "EXPIRED")) :
    a.applyStatus rt w now evt =
      ({ w with messages := saveMessage w.messages (updatedRow rt msg now evt) }, none) := by
  simp only [API.applyStatus, hfind, hfin, updatedRow]
  simp [hs]

/-- An event whose status is `FAILED` or `EXPIRED`, for a message the consumer
does not take as final: the row gets the status and one refund of the price of
the message is issued to its client. -/
theorem applyStatus_refund (rt : Runtime) (a : API) (w : World) (now : Nat)
    (evt : StatusEvent) {msg : Message} (hCM : a.CM = true)
    (hfind : firstMessage rt w.messages evt.MessageID = some msg)
    (hfin : isFinal rt msg.Status = false)
    (hs : ToUpper rt evt.Status = "FAILED" ∨ ToUpper rt evt.Status = "EXPIRED") :
    a.applyStatus rt w now evt =
      ({ w with
          messages := saveMessage w.messages (updatedRow rt msg now evt)
          ledger := (Server.Refund w.ledger now ⟨msg.ClientID, msg.PriceMinor, ""⟩).1
          rpcLog := w.rpcLog ++ [.Refund ⟨msg.ClientID, msg.PriceMinor, ""⟩] }, none) := by
  simp only [API.applyStatus, hfind, hfin, updatedRow]
  simp [hs, refund_world, hCM]

theorem isFinal_false_not_failed {rt : Runtime} {st : String} (h : isFinal rt st = false) :
    ¬ (st = "FAILED" ∨ st = "EXPIRED") := by
  intro hst
  have := isFinal_of_terminal rt (Or.inr hst)
  rw [h] at this
  exact Bool.noConfusion this

theorem find_updatedRow (rt : Runtime) (rows : List Message) (msg : Message) (now : Nat)
    (evt : StatusEvent) :
    (saveMessage rows (updatedRow rt msg now evt)).find? (fun m => m.ID == msg.ID) =
      some (updatedRow rt msg now evt) :=
  findMessage_saveMessage rows (updatedRow rt msg now evt)

/-- The refunds of a run of events naming one message that the consumer does
not take as final at the start. -/
theorem StartStatusConsumer_refunds (rt : Runtime) (a : API) (id : Int)
    (hCM : a.CM = true) (hR : a.RStatus = true) (evts : List (Nat × StatusEvent)) :
    ∀ (w : World) (msg : Message), w.messages.find? (fun m => m.ID == id) = some msg →
      isFinal rt msg.Status = false →
      (∀ e ∈ evts, rt.coerceID e.2.MessageID = some id ∧
        (e.2.Status = "ACCEPTED" ∨ e.2.Status = "DELIVERED" ∨ e.2.Status = "FAILED" ∨
          e.2.Status = "EXPIRED")) →
      ∃ st, (a.StartStatusConsumer rt w evts).1.statusOf id = some st ∧
        (a.StartStatusConsumer rt w evts).1.rpcLog =
          w.rpcLog ++ (if st = "FAILED" ∨ st = "EXPIRED"
            then [.Refund ⟨msg.ClientID, msg.PriceMinor, ""⟩] else []) ∧
        (a.StartStatusConsumer rt w evts).2 = [] := by
  induction evts with
  | nil =>
    intro w msg hfind hfin _
    refine ⟨msg.Status, by simp [API.StartStatusConsumer, World.statusOf, hfind], ?_, rfl⟩
    simp [API.StartStatusConsumer, isFinal_false_not_failed hfin]
  | cons e rest ih =>
    intro w msg hfind hfin hall
    obtain ⟨now, evt⟩ := e
    obtain ⟨hc, hst⟩ := hall (now, evt) (List.mem_cons_self _ _)
    have hrest : ∀ x ∈ rest, rt.coerceID x.2.MessageID = some id ∧
        (x.2.Status = "ACCEPTED" ∨ x.2.Status = "DELIVERED" ∨ x.2.Status = "FAILED" ∨
          x.2.Status = "EXPIRED") := fun x hx => hall x (List.mem_cons_of_mem _ hx)
    have hfm : firstMessage rt w.messages evt.MessageID = some msg := by
      rw [firstMessage_of_coerce hc]; exact hfind
    have hid : msg.ID = id := findMessage_key hfind
    subst hid
    have hfind1 := find_updatedRow rt w.messages msg now evt
    have hstatus : (updatedRow rt msg now evt).Status = ToUpper rt evt.Status := rfl
    have hclient : (updatedRow rt msg now evt).ClientID = msg.ClientID := rfl
    have hprice : (updatedRow rt msg now evt).PriceMinor = msg.PriceMinor := rfl
    simp only at hc hst
    rw [StartStatusConsumer_cons rt a w now evt rest hR]
    rcases hst with hs | hs | hs | hs
    · -- ACCEPTED: the row is rewritten, the message is still open
      have hno : ¬ (ToUpper rt evt.Status = "FAILED" ∨ ToUpper rt evt.Status = "EXPIRED") := by
        rw [hs, ToUpper_ACCEPTED]; decide
      rw [applyStatus_plain rt a w now evt hfm hfin hno]
      have hopen : isFinal rt (updatedRow rt msg now evt).Status = false := by
        rw [hstatus, hs, ToUpper_ACCEPTED]; rfl
      obtain ⟨st, h1, h2, h3⟩ :=
        ih { w with messages := saveMessage w.messages (updatedRow rt msg now evt) } _
          hfind1 hopen hrest
      rw [hclient, hprice] at h2
      exact ⟨st, h1, h2, by simp [h3]⟩
    · -- DELIVERED: final from now on, no refund
      have hno : ¬ (ToUpper rt evt.Status = "FAILED" ∨ ToUpper rt evt.Status = "EXPIRED") := by
        rw [hs, ToUpper_DELIVERED]; decide
      rw [applyStatus_plain rt a w now evt hfm hfin hno]
      have hclosed : isFinal rt (updatedRow rt msg now evt).Status = true := by
        rw [hstatus, hs, ToUpper_DELIVERED]; rfl
      rw [StartStatusConsumer_of_isFinal rt a msg.ID rest _ _ hfind1 hclosed
        (fun x hx => (hrest x hx).1)]
      refine ⟨"DELIVERED", ?_, ?_, by simp⟩
      · simp [World.statusOf, hfind1, hstatus, hs, ToUpper_DELIVERED]
      · simp
    · -- FAILED: one refund, final from now on
      have hyes : ToUpper rt evt.Status = "FAILED" ∨ ToUpper rt evt.Status = "EXPIRED" := by
        rw [hs, ToUpper_FAILED]; exact Or.inl rfl
      rw [applyStatus_refund rt a w now evt hCM hfm hfin hyes]
      have hclosed : isFinal rt (updatedRow rt msg now evt).Status = true := by
        rw [hstatus, hs, ToUpper_FAILED]; rfl
      rw [StartStatusConsumer_of_isFinal rt a msg.ID rest _ _ hfind1 hclosed
        (fun x hx => (hrest x hx).1)]
      refine ⟨"FAILED", ?_, ?_, by simp⟩
      · simp [World.statusOf, hfind1, hstatus, hs, ToUpper_FAILED]
      · simp
    · -- EXPIRED: one refund, final from now on
      have hyes : ToUpper rt evt.Status = "FAILED" ∨ ToUpper rt evt.Status = "EXPIRED" := by
        rw [hs, ToUpper_EXPIRED]; exact Or.inr rfl
      rw [applyStatus_refund rt a w now evt hCM hfm hfin hyes]
      have hclosed : isFinal rt (updatedRow rt msg now evt).Status = true := by
        rw [hstatus, hs, ToUpper_EXPIRED]; rfl
      rw [StartStatusConsumer_of_isFinal rt a msg.ID rest _ _ hfind1 hclosed
        (fun x hx => (hrest x hx).1)]
      refine ⟨"EXPIRED", ?_, ?_, by simp⟩
      · simp [World.statusOf, hfind1, hstatus, hs, ToUpper_EXPIRED]
      · simp

/-- C6. For every message stored in a non-terminal status and every finite
sequence of status events naming it, with statuses drawn from `ACCEPTED`,
`DELIVERED`, `FAILED`, `EXPIRED` in any order and with any duplication, the
status consumer of an orchestrator whose ledger client is set issues to the
ledger exactly one RPC, a
`Refund` for the client of the message with its stored `PriceMinor`, when the
message ends in `FAILED` or `EXPIRED`, and no RPC at all otherwise; it logs no
error. -/
theorem status_events_refund_exactly_once (rt : Runtime) (a : API) (w : World) (id : Int)
    (msg : Message) (evts : List (Nat × StatusEvent))
    (hCM : a.CM = true)
    (hfind : w.messages.find? (fun m => m.ID == id) = some msg)
    (hopen : msg.Status ≠ "DELIVERED" ∧ msg.Status ≠ "FAILED" ∧ msg.Status ≠ "EXPIRED")
    (hevts : ∀ e ∈ evts, rt.coerceID e.2.MessageID = some id ∧
      (e.2.Status = "ACCEPTED" ∨ e.2.Status = "DELIVERED" ∨ e.2.Status = "FAILED" ∨
        e.2.Status = "EXPIRED")) :
    ∃ st, (a.StartStatusConsumer rt w evts).1.statusOf id = some st ∧
      (a.StartStatusConsumer rt w evts).1.rpcLog =
        w.rpcLog ++ (if st = "FAILED" ∨ st = "EXPIRED"
          then [.Refund ⟨msg.ClientID, msg.PriceMinor, ""⟩] else []) ∧
      (a.StartStatusConsumer rt w evts).2 = [] := by
  have hnot : ¬ (msg.Status = "FAILED" ∨ msg.Status = "EXPIRED") := by
    rintro (h | h)
    · exact hopen.2.1 h
    · exact hopen.2.2 h
  cases hR : a.RStatus with
  | false =>
    rw [StartStatusConsumer_of_no_reader rt a w evts hR]
    exact ⟨msg.Status, by simp [World.statusOf, hfind], by simp [hnot], rfl⟩
  | true =>
    cases hfin : isFinal rt msg.Status with
    | false => exact StartStatusConsumer_refunds rt a id hCM hR evts w msg hfind hfin hevts
    | true =>
      rw [StartStatusConsumer_of_isFinal rt a id evts w msg hfind hfin
        (fun e he => (hevts e he).1)]
      exact ⟨msg.Status, by simp [World.statusOf, hfind], by simp [hnot], rfl⟩

/-- Witness of C6 on the queued sample message: the events `ACCEPTED`,
`FAILED`, `DELIVERED`, `FAILED` end in `FAILED` with the single RPC
`Refund(c1, 100, "")`. -/
theorem status_events_refund_exactly_once_witness :
    (∃ st, (sampleAPI.StartStatusConsumer sampleRuntime queuedWorld
          [(3, sampleEvent "ACCEPTED"), (4, sampleEvent "FAILED"),
           (5, sampleEvent "DELIVERED"), (6, sampleEvent "FAILED")]).1.statusOf 1 = some st ∧
      (sampleAPI.StartStatusConsumer sampleRuntime queuedWorld
          [(3, sampleEvent "ACCEPTED"), (4, sampleEvent "FAILED"),
           (5, sampleEvent "DELIVERED"), (6, sampleEvent "FAILED")]).1.rpcLog =
        queuedWorld.rpcLog ++ (if st = "FAILED" ∨ st = "EXPIRED"
          then [.Refund ⟨sampleMessage.ClientID, sampleMessage.PriceMinor, ""⟩] else []) ∧
      (sampleAPI.StartStatusConsumer sampleRuntime queuedWorld
          [(3, sampleEvent "ACCEPTED"), (4, sampleEvent "FAILED"),
           (5, sampleEvent "DELIVERED"), (6, sampleEvent "FAILED")]).2 = []) ∧
    (sampleAPI.StartStatusConsumer sampleRuntime queuedWorld
          [(3, sampleEvent "ACCEPTED"), (4, sampleEvent "FAILED"),
           (5, sampleEvent "DELIVERED"), (6, sampleEvent "FAILED")]).1.rpcLog
      = [.Refund ⟨"c1", 100, ""⟩] :=
  ⟨status_events_refund_exactly_once sampleRuntime sampleAPI queuedWorld 1 sampleMessage
      [(3, sampleEvent "ACCEPTED"), (4, sampleEvent "FAILED"),
       (5, sampleEvent "DELIVERED"), (6, sampleEvent "FAILED")]
      rfl (by decide) (by decide) (by decide),
   by decide⟩

/-! ## Submission -/

/-- A request that passes the four validations of `API.CreateMessage` reaches
the debit of the price of its kind; the rest of the handler is spelled out. -/
theorem CreateMessage_of_valid (rt : Runtime) (a : API) (w : World) (now : Nat)
    (createOk : Bool) (req : HTTPRequest) (r : CreateMessageRequest) (k : String)
    (hid : req.XClientID ≠ "") (hjson : req.json = .ok r) (hto : r.To ≠ "")
    (hbody : r.Body ≠ "") (hlen : runeCount r.Body ≤ 160)
    (hk : ToUpper rt (if r.Typ = "" then "NORMAL" else r.Typ) = k)
    (hkind : k = "NORMAL" ∨ k = "PRIORITY") :
    a.CreateMessage rt w now createOk req =
      match a.debit w now req.XClientID
          (if k = "PRIORITY" then a.PricePriority else a.PriceNormal) "" with
      | (w1, .error .errInsufficientFunds) =>
        (w1, some ⟨402, .error { Error := "insufficient_funds" }⟩)
      | (w1, .error e) =>
        (w1, some ⟨500, .error { Error := "internal_error", Detail := .ofError e }⟩)
      | (w1, .ok _) =>
        if createOk = false then
          ((a.refund w1 now req.XClientID
              (if k = "PRIORITY" then a.PricePriority else a.PriceNormal) "").1,
            some ⟨500, .error { Error := "internal_error", Detail := .ofCreate }⟩)
        else if w1.publisherRunning = false then
          ({ w1 with messages := w1.messages ++
              [{ ID := nextMessageID w1.messages, ClientID := req.XClientID, To := r.To,
                 Body := r.Body, Typ := k,
                 PriceMinor := (if k = "PRIORITY" then a.PricePriority else a.PriceNormal),
                 Status := "CREATED", Operator := "", CreatedAt := now, UpdatedAt := now }] },
            none)
        else
          ({ w1 with
              messages := w1.messages ++
                [{ ID := nextMessageID w1.messages, ClientID := req.XClientID, To := r.To,
                   Body := r.Body, Typ := k,
                   PriceMinor := (if k = "PRIORITY" then a.PricePriority else a.PriceNormal),
                   Status := "CREATED", Operator := "", CreatedAt := now, UpdatedAt := now }]
              ReadyQ := w1.ReadyQ ++
                [{ ID := nextMessageID w1.messages, ClientID := req.XClientID, To := r.To,
                   Body := r.Body, Typ := k,
                   PriceMinor := (if k = "PRIORITY" then a.PricePriority else a.PriceNormal),
                   Status := "CREATED", Operator := "", CreatedAt := now, UpdatedAt := now }] },
            if w1.ReadyQ = [] then
              some ⟨201, .created { ID := Itoa (nextMessageID w1.messages), Status := "CREATED" }⟩
            else none) := by
  have hbind : ShouldBindJSON req = .ok r := by simp [ShouldBindJSON, hjson, hto, hbody]
  have hkind2 : ¬ (k ≠ "NORMAL" ∧ k ≠ "PRIORITY") := by
    rcases hkind with h | h <;> simp [h]
  have hlen2 : ¬ runeCount r.Body > 160 := by omega
  unfold API.CreateMessage
  simp only [hid, if_false, hbind, hk, hkind2, hlen2]

/-- The debit RPC of a client whose balance is below the amount: the ledger
refuses, and the orchestrator sees `errInsufficientFunds`. -/
theorem debit_insufficient (a : API) (w : World) (now : Nat) (clientID : String)
    (amount b : Int) (ref : String) (hCM : a.CM = true)
    (hb : w.ledger.balanceOf clientID = some b) (hlt : b < amount) :
    a.debit w now clientID amount ref =
      ({ w with rpcLog := w.rpcLog ++ [.Debit ⟨clientID, amount, ref⟩] },
       .error .errInsufficientFunds) := by
  have h := Debit_insufficient now amount ref hb hlt
  simp [API.debit, hCM, Server.Debit, h]

/-- The debit RPC of a client whose balance covers the amount. -/
theorem debit_ok (a : API) (w : World) (now : Nat) (clientID : String)
    (amount b : Int) (ref : String) (hCM : a.CM = true)
    (hb : w.ledger.balanceOf clientID = some b) (hge : ¬ b < amount) (hid : clientID ≠ "") :
    a.debit w now clientID amount ref =
      ({ w with
          ledger := (w.ledger.Debit now clientID amount ref).1
          rpcLog := w.rpcLog ++ [.Debit ⟨clientID, amount, ref⟩] },
       .ok (sub64 b amount)) := by
  obtain ⟨c, hc, rfl⟩ := balanceOf_some hb
  have h := Debit_of_sufficient now amount ref hc hge hid
  simp [API.debit, hCM, Server.Debit, h]

/-- C7. `API.CreateMessage` rejects an over-long body before touching money:
for every request whose decoded body has more than 160 characters (code
points, as `runeCount` counts them) the answer is 400 and the world is
unchanged, so no RPC goes to the ledger and no message row is created. For a
body of 1 to 160 characters the answer is never the length error, and when the
client header, the recipient and the kind are valid the answer is not a 400 at
all. -/
theorem CreateMessage_rejects_long_body (rt : Runtime) (a : API) (w : World) (now : Nat)
    (createOk : Bool) (req : HTTPRequest) (r : CreateMessageRequest)
    (hjson : req.json = .ok r) :
    (160 < r.Body.length →
      ∃ e, a.CreateMessage rt w now createOk req = (w, some ⟨400, .error e⟩)) ∧
    (1 ≤ r.Body.length → r.Body.length ≤ 160 →
      (a.CreateMessage rt w now createOk req).2 ≠
        some ⟨400, .error { Error := "single-page only (<=160 chars)" }⟩ ∧
      (req.XClientID ≠ "" → r.To ≠ "" →
        (ToUpper rt (if r.Typ = "" then "NORMAL" else r.Typ) = "NORMAL" ∨
          ToUpper rt (if r.Typ = "" then "NORMAL" else r.Typ) = "PRIORITY") →
        ∀ resp, (a.CreateMessage rt w now createOk req).2 = some resp → resp.status ≠ 400)) := by
  refine ⟨fun hlong => ?_, fun h1 h160 => ⟨?_, fun hid hto hkind resp hresp => ?_⟩⟩
  · have hrc : runeCount r.Body > 160 := by rw [runeCount_eq_length]; exact hlong
    unfold API.CreateMessage
    by_cases hid : req.XClientID = ""
    · exact ⟨{ Error := "missing X-Client-ID" }, by simp [hid]⟩
    · simp only [hid, if_false]
      cases hbind : ShouldBindJSON req with
      | error e => exact ⟨_, rfl⟩
      | ok r1 =>
        have hr : r1 = r := by
          simp only [ShouldBindJSON, hjson] at hbind
          split at hbind
          · exact absurd hbind (by simp)
          · simpa using hbind.symm
        subst hr
        dsimp only
        by_cases hk : ToUpper rt (if r1.Typ = "" then "NORMAL" else r1.Typ) ≠ "NORMAL" ∧
            ToUpper rt (if r1.Typ = "" then "NORMAL" else r1.Typ) ≠ "PRIORITY"
        · rw [if_pos hk]; exact ⟨_, rfl⟩
        · rw [if_neg hk, if_pos hrc]; exact ⟨_, rfl⟩
  · have hrc : ¬ runeCount r.Body > 160 := by rw [runeCount_eq_length]; omega
    have hbody : r.Body ≠ "" := by
      intro h
      rw [h] at h1
      exact absurd h1 (by decide)
    unfold API.CreateMessage
    by_cases hid : req.XClientID = ""
    · simp [hid]
    · simp only [hid, if_false]
      by_cases hto : r.To = ""
      · have hbind : ShouldBindJSON req = .error "required" := by
          simp [ShouldBindJSON, hjson, hto]
        rw [hbind]
        simp
      · have hbind : ShouldBindJSON req = .ok r := by
          simp [ShouldBindJSON, hjson, hto, hbody]
        rw [hbind]
        dsimp only
        by_cases hk : ToUpper rt (if r.Typ = "" then "NORMAL" else r.Typ) ≠ "NORMAL" ∧
            ToUpper rt (if r.Typ = "" then "NORMAL" else r.Typ) ≠ "PRIORITY"
        · rw [if_pos hk]; simp
        · rw [if_neg hk, if_neg hrc]
          split
          · simp
          · simp
          · split
            · simp
            · split <;> simp
  · have hrc : runeCount r.Body ≤ 160 := by rw [runeCount_eq_length]; omega
    have hbody : r.Body ≠ "" := by
      intro h
      rw [h] at h1
      exact absurd h1 (by decide)
    rw [CreateMessage_of_valid rt a w now createOk req r _ hid hjson hto hbody hrc rfl hkind]
      at hresp
    split at hresp
    · simp at hresp; subst hresp; simp
    · simp at hresp; subst hresp; simp
    · split at hresp
      · simp at hresp; subst hresp; simp
      · split at hresp
        · simp at hresp
        · simp at hresp
          obtain ⟨_, rfl⟩ := hresp
          simp


/-- Witness of C7: a body of exactly 161 characters is answered 400 and the
world is unchanged; the body `hello` is not answered 400. -/
theorem CreateMessage_rejects_long_body_witness :
    (String.mk (List.replicate 161 'a')).length = 161 ∧
    (∃ e, sampleAPI.CreateMessage sampleRuntime sampleWorld 1 true longBodyRequest =
      (sampleWorld, some ⟨400, .error e⟩)) ∧
    (∀ resp, (sampleAPI.CreateMessage sampleRuntime sampleWorld 1 true sampleRequest).2
      = some resp → resp.status ≠ 400) :=
  ⟨by decide,
   (CreateMessage_rejects_long_body sampleRuntime sampleAPI sampleWorld 1 true longBodyRequest
      { To := "0912", Body := String.mk (List.replicate 161 'a'), Typ := "" } rfl).1 (by decide),
   ((CreateMessage_rejects_long_body sampleRuntime sampleAPI sampleWorld 1 true sampleRequest
      { To := "0912", Body := "hello", Typ := "" } rfl).2 (by decide) (by decide)).2
      (by decide) (by decide) (by decide)⟩

/-- C8. Submit with insufficient funds has no effect. For every valid
submission (client header present, recipient and body present, body of at most
160 characters, kind `NORMAL` or `PRIORITY`) by a client whose ledger balance
is below the configured price of that kind, `API.CreateMessage` answers 402
`insufficient_funds`; the only change to the world is the trace of the one
`Debit` RPC that was refused: the message table, the hand-off queue of the
publish pipeline, the outbound topics and the ledger (balances and
transactions) are as before. -/
theorem CreateMessage_insufficient_funds (rt : Runtime) (a : API) (w : World) (now : Nat)
    (createOk : Bool) (req : HTTPRequest) (r : CreateMessageRequest) (k : String) (b : Int)
    (hCM : a.CM = true)
    (hid : req.XClientID ≠ "") (hjson : req.json = .ok r) (hto : r.To ≠ "")
    (hbody : r.Body ≠ "") (hlen : r.Body.length ≤ 160)
    (hk : ToUpper rt (if r.Typ = "" then "NORMAL" else r.Typ) = k)
    (hkind : k = "NORMAL" ∨ k = "PRIORITY")
    (hb : w.ledger.balanceOf req.XClientID = some b)
    (hlt : b < (if k = "PRIORITY" then a.PricePriority else a.PriceNormal)) :
    a.CreateMessage rt w now createOk req =
      ({ w with rpcLog := w.rpcLog ++
          [.Debit ⟨req.XClientID, if k = "PRIORITY" then a.PricePriority else a.PriceNormal, ""⟩] },
       some ⟨402, .error { Error := "insufficient_funds" }⟩) ∧
    (a.CreateMessage rt w now createOk req).1.messages = w.messages ∧
    (a.CreateMessage rt w now createOk req).1.ReadyQ = w.ReadyQ ∧
    (a.CreateMessage rt w now createOk req).1.ledger = w.ledger ∧
    (a.CreateMessage rt w now createOk req).1.ledger.balanceOf req.XClientID = some b := by
  have hrc : runeCount r.Body ≤ 160 := by rw [runeCount_eq_length]; exact hlen
  have h : a.CreateMessage rt w now createOk req =
      ({ w with rpcLog := w.rpcLog ++
          [.Debit ⟨req.XClientID, if k = "PRIORITY" then a.PricePriority else a.PriceNormal, ""⟩] },
       some ⟨402, .error { Error := "insufficient_funds" }⟩) := by
    rw [CreateMessage_of_valid rt a w now createOk req r k hid hjson hto hbody hrc hk hkind,
      debit_insufficient a w now req.XClientID _ b "" hCM hb hlt]
  rw [h]
  exact ⟨rfl, rfl, rfl, rfl, hb⟩

/-- Witness of C8: balance 50, normal price 100; the answer is 402, no row is
created and the balance stays 50. -/
theorem CreateMessage_insufficient_funds_witness :
    poorWorld.ledger.balanceOf "c1" = some 50 ∧ sampleAPI.PriceNormal = 100 ∧
    (sampleAPI.CreateMessage sampleRuntime poorWorld 1 true sampleRequest).2 =
      some ⟨402, .error { Error := "insufficient_funds" }⟩ ∧
    (sampleAPI.CreateMessage sampleRuntime poorWorld 1 true sampleRequest).1.messages = [] ∧
    (sampleAPI.CreateMessage sampleRuntime poorWorld 1 true sampleRequest).1.ledger.balanceOf "c1"
      = some 50 :=
  ⟨by decide, by decide,
   congrArg Prod.snd (CreateMessage_insufficient_funds sampleRuntime sampleAPI poorWorld 1 true
     sampleRequest { To := "0912", Body := "hello", Typ := "" } "NORMAL" 50 rfl (by decide) rfl
     (by decide) (by decide) (by decide) rfl (by decide) (by decide) (by decide)).1,
   (CreateMessage_insufficient_funds sampleRuntime sampleAPI poorWorld 1 true
     sampleRequest { To := "0912", Body := "hello", Typ := "" } "NORMAL" 50 rfl (by decide) rfl
     (by decide) (by decide) (by decide) rfl (by decide) (by decide) (by decide)).2.1,
   (CreateMessage_insufficient_funds sampleRuntime sampleAPI poorWorld 1 true
     sampleRequest { To := "0912", Body := "hello", Typ := "" } "NORMAL" 50 rfl (by decide) rfl
     (by decide) (by decide) (by decide) rfl (by decide) (by decide) (by decide)).2.2.2.2⟩


/-! ## The saga of a failed delivery -/

theorem Server_Refund_fst (s : Svc) (now : Nat) (req : MoneyRequest) :
    (Server.Refund s now req).1 = (s.Refund now req.ClientId req.AmountMinor req.Ref).1 := by
  unfold Server.Refund
  split <;> rename_i h <;> simp [h]

/-- A valid submission by a client whose balance covers the price, with the
publish loop running and no message waiting for it: the world after the
handler, and its answer. -/
theorem CreateMessage_created (rt : Runtime) (a : API) (w : World) (now : Nat)
    (req : HTTPRequest) (r : CreateMessageRequest) (k : String) (b : Int)
    (hCM : a.CM = true) (hrun : w.publisherRunning = true) (hq : w.ReadyQ = [])
    (hid : req.XClientID ≠ "") (hjson : req.json = .ok r) (hto : r.To ≠ "")
    (hbody : r.Body ≠ "") (hlen : r.Body.length ≤ 160)
    (hk : ToUpper rt (if r.Typ = "" then "NORMAL" else r.Typ) = k)
    (hkind : k = "NORMAL" ∨ k = "PRIORITY")
    (hb : w.ledger.balanceOf req.XClientID = some b)
    (hge : ¬ b < (if k = "PRIORITY" then a.PricePriority else a.PriceNormal)) :
    a.CreateMessage rt w now true req =
      ({ w with
          ledger := (w.ledger.Debit now req.XClientID
            (if k = "PRIORITY" then a.PricePriority else a.PriceNormal) "").1
          rpcLog := w.rpcLog ++
            [.Debit ⟨req.XClientID,
              if k = "PRIORITY" then a.PricePriority else a.PriceNormal, ""⟩]
          messages := w.messages ++ [createdRow a w now req r k]
          ReadyQ := w.ReadyQ ++ [createdRow a w now req r k] },
       some ⟨201, .created { ID := Itoa (nextMessageID w.messages), Status := "CREATED" }⟩) := by
  have hrc : runeCount r.Body ≤ 160 := by rw [runeCount_eq_length]; exact hlen
  rw [CreateMessage_of_valid rt a w now true req r k hid hjson hto hbody hrc hk hkind,
    debit_ok a w now req.XClientID _ b "" hCM hb hge hid]
  simp [hrun, hq, createdRow]

/-- The publish loop on a single message handed to it, when the write
succeeds. -/
theorem PublishMessage_single_ok (a : API) (now : Nat) (w : World) (m : Message)
    (hrun : w.publisherRunning = true) (hq : w.ReadyQ = [m]) :
    a.PublishMessage now w [true] = a.publishOne { w with ReadyQ := [] } now m true := by
  simp [API.PublishMessage, hrun, hq]

theorem publishOne_ok_messages (a : API) (w : World) (now : Nat) (m : Message) :
    (a.publishOne w now m true).messages = updateStatus w.messages now m.ID "QUEUED" ∧
    (a.publishOne w now m true).ledger = w.ledger ∧
    (a.publishOne w now m true).rpcLog = w.rpcLog := by
  unfold API.publishOne
  by_cases h : m.Typ = "PRIORITY" <;> simp [h]

/-- C9. Billing consistency of the failed-delivery saga. For every client with
an `int64` balance `b` and every valid submission of kind `k` whose configured
price `p` satisfies `0 ≤ p ≤ b`, on an orchestrator wired as `main` wires it
with its publish loop idle: `API.CreateMessage` answers 201, leaves the balance
at `b - p` and a message row with status `CREATED` and `PriceMinor = p`; the
publish loop with a successful write moves the row to `QUEUED`; an `ACCEPTED`
event naming the message moves it to `ACCEPTED`, a following `FAILED` event
moves it to `FAILED`, and the balance of the client is `b` again. -/
theorem failed_delivery_saga_restores_balance (rt : Runtime) (a : API) (w : World)
    (now0 now1 now2 now3 : Nat) (req : HTTPRequest) (r : CreateMessageRequest) (k : String)
    (b p : Int) (e1 e2 : StatusEvent) (w1 w2 w3 w4 : World)
    (hCM : a.CM = true) (hR : a.RStatus = true)
    (hrun : w.publisherRunning = true) (hq : w.ReadyQ = [])
    (hid : req.XClientID ≠ "") (hjson : req.json = .ok r) (hto : r.To ≠ "")
    (hbody : r.Body ≠ "") (hlen : r.Body.length ≤ 160)
    (hk : ToUpper rt (if r.Typ = "" then "NORMAL" else r.Typ) = k)
    (hkind : k = "NORMAL" ∨ k = "PRIORITY")
    (hp : p = if k = "PRIORITY" then a.PricePriority else a.PriceNormal)
    (hb : w.ledger.balanceOf req.XClientID = some b) (hrange : isInt64 b)
    (hp0 : 0 ≤ p) (hpb : p ≤ b)
    (he1 : rt.coerceID e1.MessageID = some (nextMessageID w.messages))
    (hs1 : e1.Status = "ACCEPTED")
    (he2 : rt.coerceID e2.MessageID = some (nextMessageID w.messages))
    (hs2 : e2.Status = "FAILED")
    (hw1 : w1 = (a.CreateMessage rt w now0 true req).1)
    (hw2 : w2 = a.PublishMessage now1 w1 [true])
    (hw3 : w3 = (a.StartStatusConsumer rt w2 [(now2, e1)]).1)
    (hw4 : w4 = (a.StartStatusConsumer rt w3 [(now3, e2)]).1) :
    (a.CreateMessage rt w now0 true req).2 =
      some ⟨201, .created { ID := Itoa (nextMessageID w.messages), Status := "CREATED" }⟩ ∧
    w1.ledger.balanceOf req.XClientID = some (b - p) ∧
    w1.messages.find? (fun m => m.ID == nextMessageID w.messages) =
      some { ID := nextMessageID w.messages, ClientID := req.XClientID, To := r.To,
             Body := r.Body, Typ := k, PriceMinor := p, Status := "CREATED", Operator := "",
             CreatedAt := now0, UpdatedAt := now0 } ∧
    w2.statusOf (nextMessageID w.messages) = some "QUEUED" ∧
    w2.ledger.balanceOf req.XClientID = some (b - p) ∧
    w3.statusOf (nextMessageID w.messages) = some "ACCEPTED" ∧
    w3.ledger.balanceOf req.XClientID = some (b - p) ∧
    w4.statusOf (nextMessageID w.messages) = some "FAILED" ∧
    w4.ledger.balanceOf req.XClientID = some b := by
  subst hp
  have hge : ¬ b < (if k = "PRIORITY" then a.PricePriority else a.PriceNormal) := by omega
  have hsub : sub64 b (if k = "PRIORITY" then a.PricePriority else a.PriceNormal)
      = b - (if k = "PRIORITY" then a.PricePriority else a.PriceNormal) := by
    apply sub64_exact
    unfold isInt64 minInt64 maxInt64 at *
    omega
  have hadd : add64 (b - (if k = "PRIORITY" then a.PricePriority else a.PriceNormal))
      (if k = "PRIORITY" then a.PricePriority else a.PriceNormal) = b := by
    have : isInt64 (b - (if k = "PRIORITY" then a.PricePriority else a.PriceNormal)
        + (if k = "PRIORITY" then a.PricePriority else a.PriceNormal)) := by
      simpa using hrange
    rw [add64_exact this]
    omega
  have hcreate := CreateMessage_created rt a w now0 req r k b hCM hrun hq hid hjson hto hbody hlen
    hk hkind hb hge
  -- after the submission
  have hbal1 : w1.ledger.balanceOf req.XClientID
      = some (b - (if k = "PRIORITY" then a.PricePriority else a.PriceNormal)) := by
    rw [hw1, hcreate]
    show (w.ledger.Debit now0 req.XClientID _ "").1.balanceOf req.XClientID = _
    rw [balanceOf_Debit_ok now0 _ "" hb hge hid, hsub]
  have hrow : (createdRow a w now0 req r k).ID = nextMessageID w.messages := rfl
  have hfind1 : w1.messages.find? (fun m => m.ID == nextMessageID w.messages)
      = some (createdRow a w now0 req r k) := by
    rw [hw1, hcreate]
    exact findMessage_append_fresh w.messages (createdRow a w now0 req r k) hrow
  -- after the publish loop
  have hrun1 : w1.publisherRunning = true := by rw [hw1, hcreate]; exact hrun
  have hq1 : w1.ReadyQ = [createdRow a w now0 req r k] := by
    rw [hw1, hcreate]
    show w.ReadyQ ++ [createdRow a w now0 req r k] = _
    rw [hq]; rfl
  have hpub := PublishMessage_single_ok a now1 w1 (createdRow a w now0 req r k) hrun1 hq1
  obtain ⟨hm2, hl2, _⟩ :=
    publishOne_ok_messages a { w1 with ReadyQ := [] } now1 (createdRow a w now0 req r k)
  rw [← hpub, ← hw2] at hm2 hl2
  have hfind2 : w2.messages.find? (fun m => m.ID == nextMessageID w.messages)
      = some (queuedRow (createdRow a w now0 req r k) now1) := by
    rw [hm2]
    show (updateStatus w1.messages now1 (nextMessageID w.messages) "QUEUED").find? _ = _
    rw [findMessage_updateStatus, hfind1]
    rfl
  have hbal2 : w2.ledger.balanceOf req.XClientID
      = some (b - (if k = "PRIORITY" then a.PricePriority else a.PriceNormal)) := by
    rw [hl2]; exact hbal1
  -- after the ACCEPTED event
  have hstep3 : a.applyStatus rt w2 now2 e1 =
      ({ w2 with messages := (saveMessage w2.messages
          (updatedRow rt (queuedRow (createdRow a w now0 req r k) now1) now2 e1)) }, none) :=
    applyStatus_plain rt a w2 now2 e1 (by rw [firstMessage_of_coerce he1]; exact hfind2) rfl
      (by rw [hs1, ToUpper_ACCEPTED]; decide)
  have hw3eq : w3 = { w2 with messages := (saveMessage w2.messages
      (updatedRow rt (queuedRow (createdRow a w now0 req r k) now1) now2 e1)) } := by
    rw [hw3, StartStatusConsumer_cons rt a w2 now2 e1 [] hR, hstep3]
    rfl
  have hfind3 : w3.messages.find? (fun m => m.ID == nextMessageID w.messages)
      = some (updatedRow rt
          (queuedRow (createdRow a w now0 req r k) now1) now2 e1) := by
    rw [hw3eq]
    exact find_updatedRow rt w2.messages
      (queuedRow (createdRow a w now0 req r k) now1) now2 e1
  have hbal3 : w3.ledger.balanceOf req.XClientID
      = some (b - (if k = "PRIORITY" then a.PricePriority else a.PriceNormal)) := by
    rw [hw3eq]; exact hbal2
  -- after the FAILED event
  have hopen3 : isFinal rt (updatedRow rt
      (queuedRow (createdRow a w now0 req r k) now1)
        now2 e1).Status = false := by
    show isFinal rt (ToUpper rt e1.Status) = false
    rw [hs1, ToUpper_ACCEPTED]; rfl
  have hstep4 := applyStatus_refund rt a w3 now3 e2 hCM
    (by rw [firstMessage_of_coerce he2]; exact hfind3) hopen3
    (by rw [hs2, ToUpper_FAILED]; exact Or.inl rfl)
  have hw4eq : w4 = (a.applyStatus rt w3 now3 e2).1 := by
    rw [hw4, StartStatusConsumer_cons rt a w3 now3 e2 [] hR]
    rfl
  rw [hstep4] at hw4eq
  have hfind4 : w4.messages.find? (fun m => m.ID == nextMessageID w.messages)
      = some (updatedRow rt (updatedRow rt
          (queuedRow (createdRow a w now0 req r k) now1) now2 e1)
          now3 e2) := by
    rw [hw4eq]
    exact find_updatedRow rt w3.messages
      (updatedRow rt (queuedRow (createdRow a w now0 req r k) now1) now2 e1) now3 e2
  have hbal4 : w4.ledger.balanceOf req.XClientID = some b := by
    rw [hw4eq]
    show (Server.Refund w3.ledger now3 ⟨req.XClientID, _, ""⟩).1.balanceOf req.XClientID = _
    rw [Server_Refund_fst]
    show (w3.ledger.Refund now3 req.XClientID
      (if k = "PRIORITY" then a.PricePriority else a.PriceNormal) "").1.balanceOf _ = _
    rw [balanceOf_Refund_ok now3 _ "" hbal3 hid, hadd]
  refine ⟨congrArg Prod.snd hcreate, hbal1, hfind1, ?_, hbal2, ?_, hbal3, ?_, hbal4⟩
  · simp [World.statusOf, hfind2, queuedRow]
  · simp [World.statusOf, hfind3, updatedRow, hs1, ToUpper_ACCEPTED]
  · simp [World.statusOf, hfind4, updatedRow, hs2, ToUpper_FAILED]

/-- Witness of C9: client `c1` with balance 1000, `NORMAL` price 100. The
balance is 900 after the submission and 1000 after the `FAILED` event; the
status goes `CREATED`, `QUEUED`, `ACCEPTED`, `FAILED`. -/
theorem failed_delivery_saga_restores_balance_witness :
    sampleWorld.ledger.balanceOf "c1" = some 1000 ∧
    sagaSubmitted.statusOf 1 = some "CREATED" ∧
    ((sampleAPI.CreateMessage sampleRuntime sampleWorld 1 true sampleRequest).2 =
      some ⟨201, .created { ID := Itoa (nextMessageID sampleWorld.messages), Status := "CREATED" }⟩ ∧
    sagaSubmitted.ledger.balanceOf sampleRequest.XClientID = some (1000 - 100) ∧
    sagaSubmitted.messages.find? (fun m => m.ID == nextMessageID sampleWorld.messages) =
      some { ID := nextMessageID sampleWorld.messages, ClientID := sampleRequest.XClientID,
             To := "0912", Body := "hello", Typ := "NORMAL", PriceMinor := 100,
             Status := "CREATED", Operator := "", CreatedAt := 1, UpdatedAt := 1 } ∧
    sagaPublished.statusOf (nextMessageID sampleWorld.messages) = some "QUEUED" ∧
    sagaPublished.ledger.balanceOf sampleRequest.XClientID = some (1000 - 100) ∧
    sagaAccepted.statusOf (nextMessageID sampleWorld.messages) = some "ACCEPTED" ∧
    sagaAccepted.ledger.balanceOf sampleRequest.XClientID = some (1000 - 100) ∧
    sagaFailed.statusOf (nextMessageID sampleWorld.messages) = some "FAILED" ∧
    sagaFailed.ledger.balanceOf sampleRequest.XClientID = some 1000) :=
  ⟨by decide, by decide,
   failed_delivery_saga_restores_balance sampleRuntime sampleAPI sampleWorld 1 2 3 4
     sampleRequest { To := "0912", Body := "hello", Typ := "" } "NORMAL" 1000 100
     (sampleEvent "ACCEPTED") (sampleEvent "FAILED")
     sagaSubmitted sagaPublished sagaAccepted sagaFailed
     rfl rfl rfl rfl (by decide) rfl (by decide) (by decide) (by decide) rfl (by decide)
     (by decide) (by decide) (by decide) (by decide) (by decide) (by decide) rfl (by decide) rfl
     rfl rfl rfl rfl⟩

/-! ## The outbound record -/

/-- C10, the claim as stated fails. The sample submission of client `c1` is
handed to the publish pipeline as message 1; the record the pipeline writes
for it has key `1`, which is not the client id `c1`. -/
theorem outbound_key_is_not_client_id :
    sagaSubmitted.ReadyQ.map (fun m => (m.ID, m.ClientID)) = [(1, "c1")] ∧
    sagaPublished.topicNormal.map (fun k => k.Key) = ["1"] ∧
    ¬ (∀ m ∈ sagaSubmitted.ReadyQ, (kafkaMessageOf m).Key = m.ClientID) := by
  decide

/-- C10, amended. For every message handed to the publish pipeline, the record
it builds has partition key equal to the decimal text of the message id, and
carries the attributes `x-msg-id` = message id, `x-client-id` = client id and
`x-type` = kind; on a successful write that record is what is appended to the
topic of the kind of the message, and the other topic is unchanged. -/
theorem outbound_record_key_and_attributes (a : API) (w : World) (now : Nat) (m : Message) :
    (kafkaMessageOf m).Key = Itoa m.ID ∧
    (kafkaMessageOf m).header "x-msg-id" = some (Itoa m.ID) ∧
    (kafkaMessageOf m).header "x-client-id" = some m.ClientID ∧
    (kafkaMessageOf m).header "x-type" = some m.Typ ∧
    (if m.Typ = "PRIORITY" then
      (a.publishOne w now m true).topicPriority = w.topicPriority ++ [kafkaMessageOf m] ∧
      (a.publishOne w now m true).topicNormal = w.topicNormal
    else
      (a.publishOne w now m true).topicNormal = w.topicNormal ++ [kafkaMessageOf m] ∧
      (a.publishOne w now m true).topicPriority = w.topicPriority) := by
  refine ⟨rfl, ?_, ?_, ?_, ?_⟩
  · simp [KafkaMessage.header, kafkaMessageOf]
  · simp [KafkaMessage.header, kafkaMessageOf]
  · simp [KafkaMessage.header, kafkaMessageOf]
  · unfold API.publishOne
    by_cases h : m.Typ = "PRIORITY" <;> simp [h]


/-! ## The publish loop after a failed write -/

/-- Once the publish loop has returned, no outcome list makes it handle
anything. -/
theorem PublishMessage_of_stopped (a : API) (now : Nat) (w : World) (oks : List Bool)
    (h : w.publisherRunning = false) : a.PublishMessage now w oks = w := by
  cases oks with
  | nil => rfl
  | cons ok rest => simp [API.PublishMessage, h]

/-- The refund RPC touches the ledger and the RPC trace only. -/
theorem refund_keeps (a : API) (w : World) (now : Nat) (clientID : String) (amount : Int)
    (ref : String) :
    (a.refund w now clientID amount ref).1.messages = w.messages ∧
    (a.refund w now clientID amount ref).1.ReadyQ = w.ReadyQ ∧
    (a.refund w now clientID amount ref).1.publisherRunning = w.publisherRunning ∧
    (a.refund w now clientID amount ref).1.topicNormal = w.topicNormal ∧
    (a.refund w now clientID amount ref).1.topicPriority = w.topicPriority := by
  unfold API.refund
  by_cases hCM : a.CM = false
  · simp [hCM]
  · simp only [hCM]
    cases h : (Server.Refund w.ledger now ⟨clientID, amount, ref⟩).2 <;> simp [h]

theorem publishOne_failed_stops (a : API) (w : World) (now : Nat) (m : Message) :
    (a.publishOne w now m false).publisherRunning = false ∧
    (a.publishOne w now m false).messages = w.messages ∧
    (a.publishOne w now m false).ReadyQ = w.ReadyQ ∧
    (a.publishOne w now m false).topicNormal = w.topicNormal ∧
    (a.publishOne w now m false).topicPriority = w.topicPriority := by
  obtain ⟨h1, h2, _, h4, h5⟩ := refund_keeps a w now m.ClientID m.PriceMinor (Itoa m.ID)
  simp [API.publishOne, h1, h2, h4, h5]

/-- A failed write ends the loop: the message is refunded and left as it is,
and the messages handed after it stay where they are, whatever the outcomes of
their writes would be. -/
theorem PublishMessage_failed_write (a : API) (now : Nat) (w : World) (m : Message)
    (q : List Message) (oks : List Bool)
    (hrun : w.publisherRunning = true) (hq : w.ReadyQ = m :: q) :
    a.PublishMessage now w (false :: oks) = a.publishOne { w with ReadyQ := q } now m false ∧
    (a.PublishMessage now w (false :: oks)).ReadyQ = q ∧
    (a.PublishMessage now w (false :: oks)).messages = w.messages := by
  have h : a.PublishMessage now w (false :: oks)
      = a.publishOne { w with ReadyQ := q } now m false := by
    simp only [API.PublishMessage, hrun, hq]
    exact PublishMessage_of_stopped a now _ oks (publishOne_failed_stops a _ now m).1
  rw [h]
  exact ⟨rfl, (publishOne_failed_stops a _ now m).2.2.1, (publishOne_failed_stops a _ now m).2.1⟩

/-- C11, evaluated at the failing input. Two submissions of client `c1` are
handed to the publish loop, message 1 (`NORMAL`, price 100) and message 2
(`PRIORITY`, price 250); the write of the first fails and the write of the
second would succeed. Message 1 is refunded once and stays `CREATED`, as the
claim says. Message 2 is never handled: it stays `CREATED` and in the queue, no
record is written for it, and the loop has returned, so that further outcomes
change nothing and a later valid submission is debited, stored and then left
without an answer. -/
theorem PublishMessage_stops_after_failed_write :
    twoHanded.ReadyQ.map (fun m => (m.ID, m.Typ, m.PriceMinor, m.Status))
      = [(1, "NORMAL", 100, "CREATED"), (2, "PRIORITY", 250, "CREATED")] ∧
    twoHanded.publisherRunning = true ∧
    twoHandedRun.statusOf 1 = some "CREATED" ∧
    twoHandedRun.rpcLog = twoHanded.rpcLog ++ [.Refund ⟨"c1", 100, "1"⟩] ∧
    twoHandedRun.statusOf 2 = some "CREATED" ∧
    twoHandedRun.topicPriority = [] ∧
    twoHandedRun.ReadyQ.map (fun m => m.ID) = [2] ∧
    twoHandedRun.publisherRunning = false ∧
    sampleAPI.PublishMessage 4 twoHandedRun [true, true] = twoHandedRun ∧
    (sampleAPI.CreateMessage sampleRuntime twoHandedRun 5 true sampleRequest).2 = none ∧
    (sampleAPI.CreateMessage sampleRuntime twoHandedRun 5 true sampleRequest).1.statusOf 3
      = some "CREATED" ∧
    (sampleAPI.CreateMessage sampleRuntime twoHandedRun 5 true sampleRequest).1.ReadyQ
      = twoHandedRun.ReadyQ :=
  ⟨by decide, by decide, by decide, by decide, by decide, by decide, by decide, by decide,
   by decide, by decide, by decide, by decide⟩


/-! ## Terminal statuses and the steps of the orchestrator -/

/-- An atomic iteration of the publish loop with a successful write is the
write step followed by the update step. -/
theorem publishOne_eq_write_then_update (a : API) (w : World) (now : Nat) (m : Message) :
    a.publishOne w now m true = API.markQueued (a.publishWrite w now m true) now m := by
  unfold API.publishOne API.publishWrite API.markQueued
  by_cases h : m.Typ = "PRIORITY" <;> simp [h]

theorem findMessage_saveMessage_other (rows : List Message) (m : Message) (id : Int)
    (hne : id ≠ m.ID) :
    (saveMessage rows m).find? (fun r => r.ID == id) = rows.find? (fun r => r.ID == id) := by
  have h1 : ¬ m.ID = id := fun h => hne h.symm
  induction rows with
  | nil => simp [saveMessage, findMessage_cons, h1]
  | cons r rs ih =>
    unfold saveMessage
    by_cases h : r.ID = m.ID
    · have h2 : ¬ r.ID = id := fun h3 => h1 (h ▸ h3)
      simp [h, findMessage_cons, h1, h2]
    · simp [h, findMessage_cons, ih]

/-- The status consumer keeps the row of every message whose status is
terminal. -/
theorem applyStatus_keeps_terminal (rt : Runtime) (a : API) (w : World) (now : Nat)
    (evt : StatusEvent) (id : Int) (msg : Message)
    (hfind : w.messages.find? (fun m => m.ID == id) = some msg)
    (hterm : msg.Status = "DELIVERED" ∨ msg.Status = "FAILED" ∨ msg.Status = "EXPIRED") :
    (a.applyStatus rt w now evt).1.messages.find? (fun m => m.ID == id) = some msg := by
  unfold API.applyStatus
  cases hf : firstMessage rt w.messages evt.MessageID with
  | none => simpa using hfind
  | some found =>
    by_cases hfin : isFinal rt found.Status = true
    · simpa [hfin] using hfind
    · have hne : id ≠ found.ID := by
        intro h
        have hk : rt.coerceID evt.MessageID = some found.ID := by
          unfold firstMessage at hf
          cases hc : rt.coerceID evt.MessageID with
          | none => simp [hc] at hf
          | some k =>
            simp only [hc] at hf
            rw [findMessage_key hf]
        rw [firstMessage_of_coerce hk, ← h, hfind] at hf
        have : found = msg := by simpa using hf.symm
        rw [this] at hfin
        exact hfin (isFinal_of_terminal rt hterm)
      have hfin1 : isFinal rt found.Status = false := by simpa using hfin
      have hsave := findMessage_saveMessage_other w.messages (updatedRow rt found now evt) id hne
      simp only [updatedRow] at hsave
      simp only [hfin1, Bool.false_eq_true, if_false]
      by_cases hs : ToUpper rt evt.Status = "FAILED" ∨ ToUpper rt evt.Status = "EXPIRED"
      · rw [if_pos hs]
        show ((a.refund _ now _ _ "").1).messages.find? _ = _
        rw [(refund_keeps a _ now _ _ "").1, hsave]
        exact hfind
      · rw [if_neg hs, hsave]
        exact hfind

/-- The debit RPC leaves the message table as it is. -/
theorem debit_keeps (a : API) (w : World) (now : Nat) (clientID : String) (amount : Int)
    (ref : String) : (a.debit w now clientID amount ref).1.messages = w.messages := by
  unfold API.debit
  by_cases hCM : a.CM = false
  · simp [hCM]
  · simp only [hCM]
    cases h : (Server.Debit w.ledger now ⟨clientID, amount, ref⟩).2 with
    | error st => by_cases hc : st.code = .FailedPrecondition <;> simp [h, hc]
    | ok resp => simp [h]

/-- A submission leaves the rows of the message table as they are and adds at
most one row at the end. -/
theorem CreateMessage_messages (rt : Runtime) (a : API) (w : World) (now : Nat)
    (createOk : Bool) (req : HTTPRequest) :
    (a.CreateMessage rt w now createOk req).1.messages = w.messages ∨
    ∃ m, (a.CreateMessage rt w now createOk req).1.messages = w.messages ++ [m] := by
  unfold API.CreateMessage
  by_cases hid : req.XClientID = ""
  · left; simp [hid]
  · simp only [hid, if_false]
    cases hb : ShouldBindJSON req with
    | error e => left; rfl
    | ok r =>
      dsimp only
      by_cases hk : ToUpper rt (if r.Typ = "" then "NORMAL" else r.Typ) ≠ "NORMAL" ∧
          ToUpper rt (if r.Typ = "" then "NORMAL" else r.Typ) ≠ "PRIORITY"
      · rw [if_pos hk]; left; rfl
      · rw [if_neg hk]
        by_cases hl : runeCount r.Body > 160
        · rw [if_pos hl]; left; rfl
        · rw [if_neg hl]
          have hd := debit_keeps a w now req.XClientID
            (if ToUpper rt (if r.Typ = "" then "NORMAL" else r.Typ) = "PRIORITY"
              then a.PricePriority else a.PriceNormal) ""
          split
          · rename_i w1 heq
            rw [heq] at hd
            left; exact hd
          · rename_i w1 e _ heq
            rw [heq] at hd
            left; exact hd
          · rename_i w1 v heq
            rw [heq] at hd
            simp only at hd
            by_cases hc : createOk = false
            · rw [if_pos hc]
              left
              show ((a.refund w1 now _ _ "").1).messages = _
              rw [(refund_keeps a w1 now _ _ "").1, hd]
            · rw [if_neg hc]
              right
              split
              · exact ⟨_, by rw [← hd]⟩
              · exact ⟨_, by rw [← hd]⟩

/-- A submission keeps the row of every stored message. -/
theorem CreateMessage_keeps_rows (rt : Runtime) (a : API) (w : World) (now : Nat)
    (createOk : Bool) (req : HTTPRequest) (id : Int) (msg : Message)
    (hfind : w.messages.find? (fun m => m.ID == id) = some msg) :
    (a.CreateMessage rt w now createOk req).1.messages.find? (fun m => m.ID == id)
      = some msg := by
  rcases CreateMessage_messages rt a w now createOk req with h | ⟨m, h⟩
  · rw [h]; exact hfind
  · rw [h, List.find?_append, hfind]; rfl

/-- The write step of the publish loop leaves the message table as it is. -/
theorem publishWrite_messages (a : API) (w : World) (now : Nat) (m : Message) (writeOk : Bool) :
    (a.publishWrite w now m writeOk).messages = w.messages := by
  unfold API.publishWrite
  cases writeOk with
  | false => simp [(refund_keeps a w now m.ClientID m.PriceMinor (Itoa m.ID)).1]
  | true => by_cases h : m.Typ = "PRIORITY" <;> simp [h]

/-- Every step other than the status update of the publish loop keeps the
row of a message whose status is `DELIVERED`, `FAILED` or `EXPIRED`. -/
theorem step_keeps_terminal_unless_update (rt : Runtime) (a : API) (s : Sys) (act : Action)
    (id : Int) (msg : Message) (hact : ∀ now, act ≠ .update now)
    (hfind : s.world.messages.find? (fun m => m.ID == id) = some msg)
    (hterm : msg.Status = "DELIVERED" ∨ msg.Status = "FAILED" ∨ msg.Status = "EXPIRED") :
    (s.step rt a act).world.messages.find? (fun m => m.ID == id) = some msg := by
  cases act with
  | submit now createOk req => exact CreateMessage_keeps_rows rt a s.world now createOk req id msg hfind
  | publish now writeOk =>
    dsimp only [Sys.step]
    split
    · simp only [publishWrite_messages]
      exact hfind
    · exact hfind
  | update now => exact absurd rfl (hact now)
  | status now evt => exact applyStatus_keeps_terminal rt a s.world now evt id msg hfind hterm

/-- C12, evaluated at the failing input. The sample submission is written to
its topic; the `ACCEPTED` and `FAILED` events of the worker are applied before
the status update of the publish loop runs, so message 1 is `FAILED` and has
been refunded. The update then sets the status of message 1 from `FAILED` to
`QUEUED`. After that a redelivered `FAILED` event is no longer discarded: it
is applied and refunds a second time, leaving client `c1`, who started with
1000, with 1100. -/
theorem post_publish_update_overwrites_terminal :
    raceBeforeUpdate.world.statusOf 1 = some "FAILED" ∧
    raceBeforeUpdate.inFlight.map (fun m => m.ID) = some 1 ∧
    raceBeforeUpdate.world.ledger.balanceOf "c1" = some 1000 ∧
    (raceBeforeUpdate.step sampleRuntime sampleAPI (.update 5)).world.statusOf 1
      = some "QUEUED" ∧
    ((raceBeforeUpdate.step sampleRuntime sampleAPI (.update 5)).step sampleRuntime sampleAPI
        (.status 6 (sampleEvent "FAILED"))).world.rpcLog
      = [.Debit ⟨"c1", 100, ""⟩, .Refund ⟨"c1", 100, ""⟩, .Refund ⟨"c1", 100, ""⟩] ∧
    ((raceBeforeUpdate.step sampleRuntime sampleAPI (.update 5)).step sampleRuntime sampleAPI
        (.status 6 (sampleEvent "FAILED"))).world.ledger.balanceOf "c1" = some 1100 :=
  ⟨by decide, by decide, by decide, by decide, by decide, by decide⟩


/-! ## Paging of the listing -/

theorem Atoi_empty : Atoi "" = none := by decide

theorem listLimit_of_default (v : String)
    (h : v = "" ∨ Atoi v = none ∨ ∃ n, Atoi v = some n ∧ n ≤ 0) : listLimit v = 20 := by
  unfold listLimit
  by_cases hv : v = ""
  · simp [hv]
  · rcases h with h | h | ⟨n, h, hn⟩
    · exact absurd h hv
    · simp [hv, h]
    · have : ¬ n > 0 := by omega
      simp [hv, h, this]

theorem listLimit_of_positive (v : String) (n : Int) (h : Atoi v = some n) (hn : 0 < n) :
    listLimit v = min n 100 := by
  have hv : v ≠ "" := by
    intro hv
    rw [hv, Atoi_empty] at h
    exact Option.noConfusion h
  unfold listLimit
  simp only [hv, ne_eq, not_false_eq_true, if_true, h]
  by_cases h100 : n > 100
  · simp only [gt_iff_lt, hn, if_true, h100]
    omega
  · simp only [gt_iff_lt, hn, if_true, h100, if_false]
    omega

theorem listLimit_range (v : String) : 1 ≤ listLimit v ∧ listLimit v ≤ 100 := by
  unfold listLimit
  split
  · split
    · split
      · split <;> omega
      · omega
    · omega
  · omega

theorem listPage_nonneg (v : String) : 0 ≤ listPage v := by
  unfold listPage
  split
  · split
    · split <;> omega
    · omega
  · omega

theorem listPage_of_nonneg (v : String) (n : Int) (h : Atoi v = some n) (hn : 0 ≤ n) :
    listPage v = n := by
  have hv : v ≠ "" := by
    intro hv
    rw [hv, Atoi_empty] at h
    exact Option.noConfusion h
  unfold listPage
  simp [hv, h, hn]

theorem listPage_of_default (v : String)
    (h : v = "" ∨ Atoi v = none ∨ ∃ n, Atoi v = some n ∧ n < 0) : listPage v = 0 := by
  unfold listPage
  by_cases hv : v = ""
  · simp [hv]
  · rcases h with h | h | ⟨n, h, hn⟩
    · exact absurd h hv
    · simp [hv, h]
    · have : ¬ n ≥ 0 := by omega
      simp [hv, h, this]

/-- The product of a page up to 92233720368547758 and a limit is exact. -/
theorem mul64_page_limit (page limit : Int) (hp0 : 0 ≤ page)
    (hp : page ≤ 92233720368547758) (hl1 : 1 ≤ limit) (hl : limit ≤ 100) :
    mul64 page limit = page * limit := by
  apply wrap64_of_isInt64
  have h1 : page * limit ≤ page * 100 := Int.mul_le_mul_of_nonneg_left hl hp0
  have h2 : 0 ≤ page * limit := Int.mul_nonneg hp0 (by omega)
  unfold isInt64 minInt64 maxInt64
  omega

/-- C13. Paging parameters of `API.ListMyMessages`, for every request. The
effective limit is 20 when the `limit` parameter is absent (empty), is not an
integer or is not positive, and `min n 100` when it parses to a positive
integer `n`; it always lies in `[1, 100]`. The effective page is `n` when the
`page` parameter parses to an integer `n ≥ 0`, and 0 otherwise. The query is
issued with that limit and with offset `page * limit`, computed as the code
computes it on `int` (the exact product for every page up to
92233720368547758); when the query succeeds the answer is 200 and echoes the
effective page and limit, with the rows and their count. -/
theorem list_paging_parameters (rt : Runtime)
    (find : ListQuery → Except String (List Message)) (req : ListRequest) :
    ((req.limit = "" ∨ Atoi req.limit = none ∨ ∃ n, Atoi req.limit = some n ∧ n ≤ 0) →
      listLimit req.limit = 20) ∧
    (∀ n, Atoi req.limit = some n → 0 < n → listLimit req.limit = min n 100) ∧
    (1 ≤ listLimit req.limit ∧ listLimit req.limit ≤ 100) ∧
    (∀ n, Atoi req.page = some n → 0 ≤ n → listPage req.page = n) ∧
    ((req.page = "" ∨ Atoi req.page = none ∨ ∃ n, Atoi req.page = some n ∧ n < 0) →
      listPage req.page = 0) ∧
    (listQuery rt req).limit = listLimit req.limit ∧
    (listQuery rt req).offset = mul64 (listPage req.page) (listLimit req.limit) ∧
    (listPage req.page ≤ 92233720368547758 →
      (listQuery rt req).offset = listPage req.page * listLimit req.limit) ∧
    (req.XClientID ≠ "" → ∀ msgs, find (listQuery rt req) = .ok msgs →
      API.ListMyMessages rt find req =
        ⟨200, .items msgs (listPage req.page) (listLimit req.limit) msgs.length⟩) := by
  refine ⟨listLimit_of_default req.limit, listLimit_of_positive req.limit,
    listLimit_range req.limit, listPage_of_nonneg req.page, listPage_of_default req.page,
    rfl, rfl, fun hp => ?_, fun hid msgs hfind => ?_⟩
  · show mul64 (listPage req.page) (listLimit req.limit) = _
    exact mul64_page_limit _ _ (listPage_nonneg req.page) hp (listLimit_range req.limit).1
      (listLimit_range req.limit).2
  · simp [API.ListMyMessages, hid, hfind]

/-- Witness of C13: `limit=250&page=3` gives limit 100, page 3 and offset 300;
`limit=0` gives 20; `page=-1` gives 0; the answer echoes page 3 and limit
100. -/
theorem list_paging_parameters_witness :
    listLimit "0" = 20 ∧
    listLimit "250" = min 250 100 ∧
    listPage "3" = 3 ∧
    listPage "-1" = 0 ∧
    (listQuery sampleRuntime ⟨"c1", "250", "3", "", ""⟩).offset = 3 * 100 ∧
    API.ListMyMessages sampleRuntime sampleFind ⟨"c1", "250", "3", "", ""⟩ =
      ⟨200, .items [sampleMessage] 3 100 1⟩ :=
  ⟨(list_paging_parameters sampleRuntime sampleFind ⟨"c1", "0", "", "", ""⟩).1
      (Or.inr (Or.inr ⟨0, by decide, by decide⟩)),
   (list_paging_parameters sampleRuntime sampleFind ⟨"c1", "250", "3", "", ""⟩).2.1 250
      (by decide) (by decide),
   (list_paging_parameters sampleRuntime sampleFind ⟨"c1", "250", "3", "", ""⟩).2.2.2.1 3
      (by decide) (by decide),
   (list_paging_parameters sampleRuntime sampleFind ⟨"c1", "", "-1", "", ""⟩).2.2.2.2.1
      (Or.inr (Or.inr ⟨-1, by decide, by decide⟩)),
   (list_paging_parameters sampleRuntime sampleFind ⟨"c1", "250", "3", "", ""⟩).2.2.2.2.2.2.2.1
      (by decide),
   (list_paging_parameters sampleRuntime sampleFind ⟨"c1", "250", "3", "", ""⟩).2.2.2.2.2.2.2.2
      (by decide) [sampleMessage] (by decide)⟩


/-! ## The delivery simulator -/

/-- C14. For every worker, every inbound queued message that decodes and every
iteration of the worker loop on it in which the context is not cancelled, the
worker hands to the status topic exactly two records, in this order: first the
event with status `ACCEPTED`, then the event with status `FAILED` or
`DELIVERED`, as `shouldFail` decides. Both events carry the id of the inbound
message, the operator and the name of the worker, the trace id of the
iteration and the clock at their emission; each record has the message id as
its partition key and the attributes `x-msg-id`, `x-status`, `x-operator`,
`x-trace-id` and `x-worker` of its event. The loop goes on, and when both
writes succeed these two records are what the status topic gains. -/
theorem worker_iteration_two_events (w : Worker) (st : WorkerState) (m : InMsg) (d : Draws)
    (hlive : d.cancelled = false) :
    (w.iteration st (.message m) d).1.handed =
      st.handed ++
        [{ Key := m.MessageID
           Value := { MessageID := m.MessageID, Status := "ACCEPTED", Operator := w.Operator,
                      At := d.at1, TraceID := d.trace, Worker := w.WorkerName }
           Headers := [⟨"x-msg-id", m.MessageID⟩, ⟨"x-status", "ACCEPTED"⟩,
                       ⟨"x-operator", w.Operator⟩, ⟨"x-trace-id", d.trace⟩,
                       ⟨"x-worker", w.WorkerName⟩] },
         { Key := m.MessageID
           Value := { MessageID := m.MessageID,
                      Status := if w.shouldFail d.r then "FAILED" else "DELIVERED",
                      Operator := w.Operator, At := d.at2, TraceID := d.trace,
                      Worker := w.WorkerName }
           Headers := [⟨"x-msg-id", m.MessageID⟩,
                       ⟨"x-status", if w.shouldFail d.r then "FAILED" else "DELIVERED"⟩,
                       ⟨"x-operator", w.Operator⟩, ⟨"x-trace-id", d.trace⟩,
                       ⟨"x-worker", w.WorkerName⟩] }] ∧
    ((if w.shouldFail d.r then "FAILED" else "DELIVERED") = "FAILED" ∨
      (if w.shouldFail d.r then "FAILED" else "DELIVERED") = "DELIVERED") ∧
    (w.iteration st (.message m) d).2 = true ∧
    (d.writeOk1 = true → d.writeOk2 = true →
      (w.iteration st (.message m) d).1.topicStatus =
        st.topicStatus ++
          [{ Key := m.MessageID
             Value := { MessageID := m.MessageID, Status := "ACCEPTED", Operator := w.Operator,
                        At := d.at1, TraceID := d.trace, Worker := w.WorkerName }
             Headers := [⟨"x-msg-id", m.MessageID⟩, ⟨"x-status", "ACCEPTED"⟩,
                         ⟨"x-operator", w.Operator⟩, ⟨"x-trace-id", d.trace⟩,
                         ⟨"x-worker", w.WorkerName⟩] },
           { Key := m.MessageID
             Value := { MessageID := m.MessageID,
                        Status := if w.shouldFail d.r then "FAILED" else "DELIVERED",
                        Operator := w.Operator, At := d.at2, TraceID := d.trace,
                        Worker := w.WorkerName }
             Headers := [⟨"x-msg-id", m.MessageID⟩,
                         ⟨"x-status", if w.shouldFail d.r then "FAILED" else "DELIVERED"⟩,
                         ⟨"x-operator", w.Operator⟩, ⟨"x-trace-id", d.trace⟩,
                         ⟨"x-worker", w.WorkerName⟩] }]) := by
  refine ⟨?_, ?_, ?_, fun h1 h2 => ?_⟩
  · simp [Worker.iteration, Worker.publish, recordOf, hlive]
  · cases w.shouldFail d.r <;> simp
  · simp [Worker.iteration, hlive]
  · simp [Worker.iteration, Worker.publish, recordOf, hlive, h1, h2]

/-- Witness of C14: the sample worker on message 1, with the draw 29 below its
failure percentage 30: an `ACCEPTED` and then a `FAILED` record, both with key
`1`, operator `mock`, worker `w-1` and trace `t-1`. -/
theorem worker_iteration_two_events_witness :
    (sampleWorker.iteration ⟨[], []⟩ (.message sampleInMsg) sampleDraws).1.handed =
      [] ++
        [{ Key := "1"
           Value := { MessageID := "1", Status := "ACCEPTED", Operator := "mock",
                      At := "10:00:00", TraceID := "t-1", Worker := "w-1" }
           Headers := [⟨"x-msg-id", "1"⟩, ⟨"x-status", "ACCEPTED"⟩, ⟨"x-operator", "mock"⟩,
                       ⟨"x-trace-id", "t-1"⟩, ⟨"x-worker", "w-1"⟩] },
         { Key := "1"
           Value := { MessageID := "1",
                      Status := if sampleWorker.shouldFail 29 then "FAILED" else "DELIVERED",
                      Operator := "mock", At := "10:00:01", TraceID := "t-1", Worker := "w-1" }
           Headers := [⟨"x-msg-id", "1"⟩,
                       ⟨"x-status", if sampleWorker.shouldFail 29 then "FAILED" else "DELIVERED"⟩,
                       ⟨"x-operator", "mock"⟩, ⟨"x-trace-id", "t-1"⟩, ⟨"x-worker", "w-1"⟩] }] ∧
    (sampleWorker.iteration ⟨[], []⟩ (.message sampleInMsg) sampleDraws).1.handed.map
        (fun k => (k.Key, k.Value.Status, k.Value.Operator, k.Value.Worker, k.Value.TraceID))
      = [("1", "ACCEPTED", "mock", "w-1", "t-1"), ("1", "FAILED", "mock", "w-1", "t-1")] :=
  ⟨(worker_iteration_two_events sampleWorker ⟨[], []⟩ sampleInMsg sampleDraws rfl).1,
   by decide⟩

theorem filter_lt_range (p n : Nat) :
    ((List.range n).filter (fun r => decide (r < p))).length = min p n := by
  induction n with
  | zero => simp
  | succ k ih =>
    rw [List.range_succ, List.filter_append, List.length_append, ih]
    by_cases h : k < p
    · simp [h]; omega
    · simp [h]; omega

/-- C15. The failure decision `shouldFail` as a function of the configured
percentage `p` and of the draw `r`: it is `false` for every `p ≤ 0` and `true`
for every `p ≥ 100`, whatever the draw; for `0 < p < 100` it is `true` exactly
when `r < p`. Of the 100 draws `0, …, 99` exactly `p` fail when `0 < p < 100`,
none when `p ≤ 0` and all when `p ≥ 100`. -/
theorem shouldFail_decision (w : Worker) :
    (w.FailRatio ≤ 0 → ∀ r, w.shouldFail r = false) ∧
    (w.FailRatio ≥ 100 → ∀ r, w.shouldFail r = true) ∧
    (0 < w.FailRatio → w.FailRatio < 100 → ∀ r, (w.shouldFail r = true ↔ r < w.FailRatio)) ∧
    (0 < w.FailRatio → w.FailRatio < 100 →
      (((List.range 100).filter (fun r : Nat => w.shouldFail r)).length : Int) = w.FailRatio) ∧
    (w.FailRatio ≤ 0 → ((List.range 100).filter (fun r : Nat => w.shouldFail r)).length = 0) ∧
    (w.FailRatio ≥ 100 →
      ((List.range 100).filter (fun r : Nat => w.shouldFail r)).length = 100) := by
  refine ⟨fun h r => ?_, fun h r => ?_, fun h0 h100 r => ?_, fun h0 h100 => ?_, fun h => ?_,
    fun h => ?_⟩
  · simp [Worker.shouldFail, h]
  · have h0 : ¬ w.FailRatio ≤ 0 := by omega
    simp [Worker.shouldFail, h0, h]
  · have h1 : ¬ w.FailRatio ≤ 0 := by omega
    have h2 : ¬ w.FailRatio ≥ 100 := by omega
    simp [Worker.shouldFail, h1, h2]
  · have h1 : ¬ w.FailRatio ≤ 0 := by omega
    have h2 : ¬ w.FailRatio ≥ 100 := by omega
    have hfun : (fun r : Nat => w.shouldFail r)
        = (fun r : Nat => decide (r < w.FailRatio.toNat)) := by
      funext r
      simp only [Worker.shouldFail, h1, h2, if_false]
      congr 1
      apply propext
      omega
    rw [hfun, filter_lt_range]
    omega
  · have hfun : (fun r : Nat => w.shouldFail r) = (fun _ => false) := by
      funext r
      simp [Worker.shouldFail, h]
    rw [hfun]
    simp
  · have h0 : ¬ w.FailRatio ≤ 0 := by omega
    have hfun : (fun r : Nat => w.shouldFail r) = (fun _ => true) := by
      funext r
      simp [Worker.shouldFail, h0, h]
    rw [hfun]
    simp

/-- Witness of C15: with `p = 30` the draw 29 fails, the draw 30 does not, and
30 of the 100 draws fail; with `p = 0` no draw fails and with `p = 100` every
draw does. -/
theorem shouldFail_decision_witness :
    (sampleWorker.shouldFail 29 = true ↔ (29 : Int) < sampleWorker.FailRatio) ∧
    sampleWorker.shouldFail 30 = false ∧
    (((List.range 100).filter (fun r : Nat => sampleWorker.shouldFail r)).length : Int)
      = sampleWorker.FailRatio ∧
    (∀ r, ({ sampleWorker with FailRatio := 0 } : Worker).shouldFail r = false) ∧
    (∀ r, ({ sampleWorker with FailRatio := 100 } : Worker).shouldFail r = true) :=
  ⟨(shouldFail_decision sampleWorker).2.2.1 (by decide) (by decide) 29,
   by decide,
   (shouldFail_decision sampleWorker).2.2.2.1 (by decide) (by decide),
   (shouldFail_decision { sampleWorker with FailRatio := 0 }).1 (by decide),
   (shouldFail_decision { sampleWorker with FailRatio := 100 }).2.1 (by decide)⟩

end SmsGateway
